import Mathlib

/-!
# Facebox similarity client (facebox/facebox_similar.go)

A shallow embedding of the seven exported operations of the similarity client
(Similar, SimilarURL, SimilarID, SimilarBase64, Similars, SimilarsURL,
SimilarsBase64) and of the two envelope parsers, followed by the properties
proved about them.

Conventions of the embedding

* A Go function returning (results, error) becomes a function into Except.
* Every operation returns an Outcome: the requests it handed to the HTTP
  transport, in order, together with its Go result.  "The transport is never
  invoked" is the statement that the list of sent requests is empty.
* Calls into the Go standard library whose behaviour is not fixed by this
  repository (url.Parse, URL.String, url.ParseQuery, the JSON decoder) are
  fields of a Lib record; every theorem holds for every Lib.  The pieces of
  the library with a short closed description (strconv.Itoa, url.QueryEscape,
  url.Values, http.Header, the multipart writer) are defined here.
* The random boundary that multipart.NewWriter draws is an explicit argument.
* Go strings are modelled by Lean strings (valid UTF-8 text); pointer
  arguments (the client, the image URL) are taken to be non-nil.
-/

namespace Facebox

deriving instance DecidableEq for Except

/-! ## Errors -/

/-- Error values that the client can return.  New and Wrap are the two
constructors of github.com/pkg/errors used in the source; Ext stands for an
error produced by a collaborator (image reader, url.Parse, http.NewRequest,
the transport, the JSON decoder).
ErrFacebox — Modelled from the spec: the type ErrFacebox is declared in a file
of the package that is not part of the sources at hand; the spec describes it
as the single error kind carrying the server-supplied free-text message. -/
inductive Error where
  | New (msg : String)
  | Wrap (cause : Error) (msg : String)
  | ErrFacebox (msg : String)
  | Ext (msg : String)
  deriving DecidableEq, Repr

/-! ## Data model -/

/-- One octet. -/
abbrev Byte := Fin 256

/-- A byte sequence. -/
abbrev Bytes := List Byte

/-- Modelled from the spec: IEEE-754 binary64 value of a confidence score,
kept as its bit pattern; the client never computes with it. -/
structure Float64 where
  bits : Nat
  deriving DecidableEq, Repr

/-- Modelled from the spec: Rect, a face bounding box (top, left, width,
height as integers); its declaration is not part of the sources at hand. -/
structure Rect where
  Top : Int
  Left : Int
  Width : Int
  Height : Int
  deriving DecidableEq, Repr

/-- Modelled from the spec: Similar, a single gallery match (identifier,
confidence, name); its declaration is not part of the sources at hand. -/
structure Similar where
  ID : String
  Confidence : Float64
  Name : String
  deriving DecidableEq, Repr

/-- SimilarFace describes a face with similarities (source lines 163-167). -/
structure SimilarFace where
  Rect : Rect
  SimilarFaces : List Similar
  deriving DecidableEq, Repr

/-- The anonymous struct decoded by parseSimilarResponse (lines 149-153). -/
structure SimilarResponse where
  Success : Bool
  Error : String
  Similar : List Similar
  deriving DecidableEq, Repr

/-- The anonymous struct decoded by parseSimilarsResponse (lines 285-289). -/
structure SimilarsResponse where
  Success : Bool
  Error : String
  Faces : List SimilarFace
  deriving DecidableEq, Repr

/-! ## io.Reader -/

/-- An io.Reader as seen by a consumer that reads it to the end: the bytes it
delivers, then either io.EOF (err = none) or a read error. -/
structure Reader where
  data : Bytes
  err : Option Error
  deriving DecidableEq, Repr

/-! ## strconv.Itoa -/

/-- The function strconv.Itoa: base-10 rendering of a Go int. -/
def Itoa : Int → String
  | Int.ofNat n => Nat.repr n
  | Int.negSucc n => "-" ++ Nat.repr (n + 1)

/-! ## net/url: escaping and Values -/

/-- Upper-case hexadecimal digit of a value below 16. -/
def upperhex (n : Nat) : Char :=
  if n < 10 then Char.ofNat (48 + n) else Char.ofNat (55 + n)

/-- UTF-8 encoding of a character, as byte values. -/
def utf8Bytes (c : Char) : List Nat :=
  let n := c.toNat
  if n < 0x80 then [n]
  else if n < 0x800 then [0xC0 + n / 64, 0x80 + n % 64]
  else if n < 0x10000 then [0xE0 + n / 4096, 0x80 + n / 64 % 64, 0x80 + n % 64]
  else [0xF0 + n / 262144, 0x80 + n / 4096 % 64, 0x80 + n / 64 % 64, 0x80 + n % 64]

/-- The predicate shouldEscape of net/url in mode encodeQueryComponent: only
ASCII letters, digits and the marks - _ . ~ are left alone. -/
def shouldEscape (c : Char) : Bool :=
  !(('a' ≤ c && c ≤ 'z') || ('A' ≤ c && c ≤ 'Z') || ('0' ≤ c && c ≤ '9')
    || c == '-' || c == '_' || c == '.' || c == '~')

/-- Percent-encoding of one byte value. -/
def pctByte (b : Nat) : List Char :=
  ['%', upperhex (b / 16), upperhex (b % 16)]

/-- Escaping of one character by url.QueryEscape. -/
def escapeChar (c : Char) : List Char :=
  if shouldEscape c then
    if c == ' ' then ['+'] else (utf8Bytes c).foldr (fun b acc => pctByte b ++ acc) []
  else [c]

/-- Character-list worker of url.QueryEscape. -/
def escapeChars : List Char → List Char
  | [] => []
  | c :: cs => escapeChar c ++ escapeChars cs

/-- The function url.QueryEscape. -/
def QueryEscape (s : String) : String :=
  String.mk (escapeChars s.data)

/-- The type url.Values (map[string][]string) as an association list holding
each key at most once. -/
abbrev Values := List (String × List String)

namespace Values

/-- The method Values.Get: first value of the key, or the empty string. -/
def Get (v : Values) (key : String) : String :=
  match v.lookup key with
  | some (x :: _) => x
  | _ => ""

/-- The method Values.Set: the key now maps to exactly one value. -/
def Set (v : Values) (key value : String) : Values :=
  (key, [value]) :: v.filter (fun e => e.1 != key)

/-- The method Values.Add: append the value to the values of the key. -/
def Add (v : Values) (key value : String) : Values :=
  match v.lookup key with
  | some vs => (key, vs ++ [value]) :: v.filter (fun e => e.1 != key)
  | none => (key, [value]) :: v

/-- Insert an entry into a list of entries ordered by key (the order of Go
strings, which on valid UTF-8 is the lexicographic order of the characters). -/
def insertByKey (e : String × List String) : Values → Values
  | [] => [e]
  | x :: xs => if e.1.data < x.1.data then e :: x :: xs else x :: insertByKey e xs

/-- Entries ordered by key (slices.Sort of the keys in Values.Encode). -/
def sortByKey : Values → Values
  | [] => []
  | x :: xs => insertByKey x (sortByKey xs)

/-- The key=value pieces of one entry. -/
def pieces (key : String) : List String → List String
  | [] => []
  | x :: xs => (QueryEscape key ++ "=" ++ QueryEscape x) :: pieces key xs

/-- All key=value pieces of a sorted list of entries. -/
def allPieces : Values → List String
  | [] => []
  | e :: es => pieces e.1 e.2 ++ allPieces es

/-- Join of pieces with the separator &. -/
def joinAmp : List String → String
  | [] => ""
  | [p] => p
  | p :: q :: ps => p ++ "&" ++ joinAmp (q :: ps)

/-- The method Values.Encode: "URL encoded" form sorted by key. -/
def Encode (v : Values) : String :=
  joinAmp (allPieces (sortByKey v))

end Values

/-- The struct url.URL. -/
structure URL where
  Scheme : String
  Opaque : String
  User : Option String
  Host : String
  Path : String
  RawPath : String
  OmitHost : Bool
  ForceQuery : Bool
  RawQuery : String
  Fragment : String
  RawFragment : String
  deriving DecidableEq, Repr

/-- The method URL.IsAbs: the URL has a non-empty scheme. -/
def URL.IsAbs (u : URL) : Bool :=
  u.Scheme != ""

/-! ## http.Header, requests, responses, the client -/

/-- The type http.Header restricted to single-valued fields. -/
abbrev Header := List (String × String)

/-- The method Header.Set (the keys used by the source are canonical). -/
def Header.Set (h : Header) (key value : String) : Header :=
  (key, value) :: h.filter (fun e => e.1 != key)

/-- The method Header.Get. -/
def Header.Get (h : Header) (key : String) : String :=
  match h.lookup key with
  | some v => v
  | none => ""

/-- One part written through a multipart.Writer. -/
structure Part where
  FormName : String
  FileName : String
  ContentType : String
  Data : Bytes
  deriving DecidableEq, Repr

/-- A multipart.Writer together with what it has written to its buffer: the
boundary, the parts in order, and whether the closing boundary was written. -/
structure Writer where
  boundary : String
  parts : List Part
  closed : Bool
  deriving DecidableEq, Repr

/-- The body argument of http.NewRequest. -/
inductive Body where
  | none
  | buffer (w : Writer)
  | text (s : String)
  deriving DecidableEq, Repr

/-- An http.Request: method, the URL string it was created with, header
fields and body. -/
structure Request where
  Method : String
  URL : String
  Header : Header
  Body : Body
  deriving DecidableEq, Repr

/-- An http.Response. -/
structure Response where
  Status : String
  StatusCode : Int
  Body : Reader
  deriving DecidableEq, Repr

/-- Modelled from the spec: Client, holding the base address and the injected
HTTP transport (its Do method); the struct is declared in a file of the
package that is not part of the sources at hand. -/
structure Client where
  addr : String
  HTTPClient : Request → Except Error Response

/-- Standard-library behaviour the client relies on without fixing it. -/
structure Lib where
  /-- The function url.Parse. -/
  Parse : String → Except Error URL
  /-- The method URL.String. -/
  URLString : URL → String
  /-- The function url.ParseQuery with its error dropped, as URL.Query does. -/
  ParseQuery : String → Values
  /-- The call json.NewDecoder(r).Decode into a SimilarResponse. -/
  DecodeSimilar : Reader → Except Error SimilarResponse
  /-- The call json.NewDecoder(r).Decode into a SimilarsResponse. -/
  DecodeSimilars : Reader → Except Error SimilarsResponse

/-- The method URL.Query. -/
def Lib.Query (L : Lib) (u : URL) : Values :=
  L.ParseQuery u.RawQuery

/-- The function http.NewRequest for the methods GET and POST: it fails
exactly when the URL string does not parse. -/
def NewRequest (L : Lib) (method url : String) (body : Body) : Except Error Request :=
  match L.Parse url with
  | .error e => .error e
  | .ok _ => .ok { Method := method, URL := url, Header := [], Body := body }

/-- The method Request.Header.Set. -/
def Request.SetHeader (r : Request) (key value : String) : Request :=
  { r with Header := r.Header.Set key value }

/-! ## mime/multipart -/

/-- The function multipart.NewWriter, with the boundary it draws. -/
def NewWriter (boundary : String) : Writer :=
  { boundary := boundary, parts := [], closed := false }

/-- The method Writer.CreateFormFile; writing to a bytes.Buffer cannot fail. -/
def Writer.CreateFormFile (w : Writer) (fieldname filename : String) : Except Error Writer :=
  .ok { w with parts := w.parts ++
    [{ FormName := fieldname, FileName := filename,
       ContentType := "application/octet-stream", Data := [] }] }

/-- Append bytes to the part being written. -/
def appendToLast (d : Bytes) : List Part → List Part
  | [] => []
  | [p] => [{ p with Data := p.Data ++ d }]
  | p :: q :: ps => p :: appendToLast d (q :: ps)

/-- The call io.Copy(fw, image) where fw is the part being written: the bytes
the reader delivers are appended; the reader error, if any, is returned. -/
def ioCopy (w : Writer) (image : Reader) : Writer × Option Error :=
  ({ w with parts := appendToLast image.data w.parts }, image.err)

/-- The method Writer.Close; writing to a bytes.Buffer cannot fail. -/
def Writer.Close (w : Writer) : Except Error Writer :=
  .ok { w with closed := true }

/-- The method Writer.FormDataContentType. -/
def Writer.FormDataContentType (w : Writer) : String :=
  let special : List Char :=
    ['(', ')', '<', '>', '@', ',', ';', ':', '\\', '"', '/', '[', ']', '?', '=', ' ']
  let b := if w.boundary.data.any (fun c => special.contains c)
    then "\"" ++ w.boundary ++ "\"" else w.boundary
  "multipart/form-data; boundary=" ++ b

/-! ## The client -/

/-- What an operation did: the requests handed to the transport, in order,
and the Go return value. -/
structure Outcome (α : Type) where
  sent : List Request
  result : Except Error α
  deriving DecidableEq

/-- Method parseSimilarResponse (source lines 148-161). -/
def parseSimilarResponse (L : Lib) (r : Reader) : Except Error (List Similar) :=
  match L.DecodeSimilar r with
  | .error err => .error (Error.Wrap err "decoding response")
  | .ok similarResponse =>
    if !similarResponse.Success then
      .error (Error.ErrFacebox similarResponse.Error)
    else
      .ok similarResponse.Similar

/-- Method parseSimilarsResponse (source lines 284-297). -/
def parseSimilarsResponse (L : Lib) (r : Reader) : Except Error (List SimilarFace) :=
  match L.DecodeSimilars r with
  | .error err => .error (Error.Wrap err "decoding response")
  | .ok similarsResponse =>
    if !similarsResponse.Success then
      .error (Error.ErrFacebox similarsResponse.Error)
    else
      .ok similarsResponse.Faces

/-- Method Similar (source lines 18-54). -/
def Client.Similar (c : Client) (L : Lib) (boundary : String) (image : Reader) :
    Outcome (List Facebox.Similar) :=
  let w := NewWriter boundary
  match w.CreateFormFile "file" "image.dat" with
  | .error err => ⟨[], .error err⟩
  | .ok w =>
  match ioCopy w image with
  | (_, some err) => ⟨[], .error err⟩
  | (w, none) =>
  match w.Close with
  | .error err => ⟨[], .error err⟩
  | .ok w =>
  match L.Parse (c.addr ++ "/facebox/similar") with
  | .error err => ⟨[], .error err⟩
  | .ok u =>
  if !u.IsAbs then ⟨[], .error (Error.New "box address must be absolute")⟩ else
  match NewRequest L "POST" (L.URLString u) (Body.buffer w) with
  | .error err => ⟨[], .error err⟩
  | .ok req =>
  let req := req.SetHeader "Accept" "application/json; charset=utf-8"
  let req := req.SetHeader "Content-Type" w.FormDataContentType
  match c.HTTPClient req with
  | .error err => ⟨[req], .error err⟩
  | .ok resp =>
  if resp.StatusCode < 200 || resp.StatusCode ≥ 300 then
    ⟨[req], .error (Error.New resp.Status)⟩
  else ⟨[req], parseSimilarResponse L resp.Body⟩

/-- Method SimilarURL (source lines 58-86). -/
def Client.SimilarURL (c : Client) (L : Lib) (imageURL : URL) : Outcome (List Facebox.Similar) :=
  match L.Parse (c.addr ++ "/facebox/similar") with
  | .error err => ⟨[], .error err⟩
  | .ok u =>
  if !u.IsAbs then ⟨[], .error (Error.New "box address must be absolute")⟩ else
  if !imageURL.IsAbs then ⟨[], .error (Error.New "url must be absolute")⟩ else
  let form : Values := []
  let form := form.Set "url" (L.URLString imageURL)
  match NewRequest L "POST" (L.URLString u) (Body.text form.Encode) with
  | .error err => ⟨[], .error err⟩
  | .ok req =>
  let req := req.SetHeader "Content-Type" "application/x-www-form-urlencoded"
  let req := req.SetHeader "Accept" "application/json; charset=utf-8"
  match c.HTTPClient req with
  | .error err => ⟨[req], .error err⟩
  | .ok resp =>
  if resp.StatusCode < 200 || resp.StatusCode ≥ 300 then
    ⟨[req], .error (Error.New resp.Status)⟩
  else ⟨[req], parseSimilarResponse L resp.Body⟩

/-- Method SimilarID (source lines 89-117). -/
def Client.SimilarID (c : Client) (L : Lib) (id : String) : Outcome (List Facebox.Similar) :=
  match L.Parse (c.addr ++ "/facebox/similar") with
  | .error err => ⟨[], .error err⟩
  | .ok u =>
  if !u.IsAbs then ⟨[], .error (Error.New "box address must be absolute")⟩ else
  if id == "" then ⟨[], .error (Error.New "id can not be empty")⟩ else
  let q := L.Query u
  let q := q.Set "id" id
  let u := { u with RawQuery := q.Encode }
  match NewRequest L "GET" (L.URLString u) Body.none with
  | .error err => ⟨[], .error err⟩
  | .ok req =>
  let req := req.SetHeader "Accept" "application/json; charset=utf-8"
  match c.HTTPClient req with
  | .error err => ⟨[req], .error err⟩
  | .ok resp =>
  if resp.StatusCode < 200 || resp.StatusCode ≥ 300 then
    ⟨[req], .error (Error.New resp.Status)⟩
  else ⟨[req], parseSimilarResponse L resp.Body⟩

/-- Method SimilarBase64 (source lines 121-146). -/
def Client.SimilarBase64 (c : Client) (L : Lib) (data : String) : Outcome (List Facebox.Similar) :=
  match L.Parse (c.addr ++ "/facebox/similar") with
  | .error err => ⟨[], .error err⟩
  | .ok u =>
  if !u.IsAbs then ⟨[], .error (Error.New "box address must be absolute")⟩ else
  let form : Values := []
  let form := form.Set "base64" data
  match NewRequest L "POST" (L.URLString u) (Body.text form.Encode) with
  | .error err => ⟨[], .error err⟩
  | .ok req =>
  let req := req.SetHeader "Content-Type" "application/x-www-form-urlencoded"
  let req := req.SetHeader "Accept" "application/json; charset=utf-8"
  match c.HTTPClient req with
  | .error err => ⟨[req], .error err⟩
  | .ok resp =>
  if resp.StatusCode < 200 || resp.StatusCode ≥ 300 then
    ⟨[req], .error (Error.New resp.Status)⟩
  else ⟨[req], parseSimilarResponse L resp.Body⟩

/-- Method Similars (source lines 171-213). -/
def Client.Similars (c : Client) (L : Lib) (boundary : String) (image : Reader) (limit : Int) :
    Outcome (List Facebox.SimilarFace) :=
  let w := NewWriter boundary
  match w.CreateFormFile "file" "image.dat" with
  | .error err => ⟨[], .error err⟩
  | .ok w =>
  match ioCopy w image with
  | (_, some err) => ⟨[], .error err⟩
  | (w, none) =>
  match w.Close with
  | .error err => ⟨[], .error err⟩
  | .ok w =>
  match L.Parse (c.addr ++ "/facebox/similars") with
  | .error err => ⟨[], .error err⟩
  | .ok u =>
  if !u.IsAbs then ⟨[], .error (Error.New "box address must be absolute")⟩ else
  let limit := if limit < 1 then 5 else limit
  let q : Values := []
  let q := q.Add "limit" (Itoa limit)
  let u := { u with RawQuery := q.Encode }
  match NewRequest L "POST" (L.URLString u) (Body.buffer w) with
  | .error err => ⟨[], .error err⟩
  | .ok req =>
  let req := req.SetHeader "Accept" "application/json; charset=utf-8"
  let req := req.SetHeader "Content-Type" w.FormDataContentType
  match c.HTTPClient req with
  | .error err => ⟨[req], .error err⟩
  | .ok resp =>
  if resp.StatusCode < 200 || resp.StatusCode ≥ 300 then
    ⟨[req], .error (Error.New resp.Status)⟩
  else ⟨[req], parseSimilarsResponse L resp.Body⟩

/-- Method SimilarsURL (source lines 217-249). -/
def Client.SimilarsURL (c : Client) (L : Lib) (imageURL : URL) (limit : Int) :
    Outcome (List Facebox.SimilarFace) :=
  match L.Parse (c.addr ++ "/facebox/similars") with
  | .error err => ⟨[], .error err⟩
  | .ok u =>
  if !u.IsAbs then ⟨[], .error (Error.New "box address must be absolute")⟩ else
  if !imageURL.IsAbs then ⟨[], .error (Error.New "url must be absolute")⟩ else
  let form : Values := []
  let form := form.Set "url" (L.URLString imageURL)
  let limit := if limit < 1 then 5 else limit
  let form := form.Set "limit" (Itoa limit)
  match NewRequest L "POST" (L.URLString u) (Body.text form.Encode) with
  | .error err => ⟨[], .error err⟩
  | .ok req =>
  let req := req.SetHeader "Content-Type" "application/x-www-form-urlencoded"
  let req := req.SetHeader "Accept" "application/json; charset=utf-8"
  match c.HTTPClient req with
  | .error err => ⟨[req], .error err⟩
  | .ok resp =>
  if resp.StatusCode < 200 || resp.StatusCode ≥ 300 then
    ⟨[req], .error (Error.New resp.Status)⟩
  else ⟨[req], parseSimilarsResponse L resp.Body⟩

/-- Method SimilarsBase64 (source lines 253-282). -/
def Client.SimilarsBase64 (c : Client) (L : Lib) (data : String) (limit : Int) :
    Outcome (List Facebox.SimilarFace) :=
  match L.Parse (c.addr ++ "/facebox/similars") with
  | .error err => ⟨[], .error err⟩
  | .ok u =>
  if !u.IsAbs then ⟨[], .error (Error.New "box address must be absolute")⟩ else
  let form : Values := []
  let form := form.Set "base64" data
  let limit := if limit < 1 then 5 else limit
  let form := form.Set "limit" (Itoa limit)
  match NewRequest L "POST" (L.URLString u) (Body.text form.Encode) with
  | .error err => ⟨[], .error err⟩
  | .ok req =>
  let req := req.SetHeader "Content-Type" "application/x-www-form-urlencoded"
  let req := req.SetHeader "Accept" "application/json; charset=utf-8"
  match c.HTTPClient req with
  | .error err => ⟨[req], .error err⟩
  | .ok resp =>
  if resp.StatusCode < 200 || resp.StatusCode ≥ 300 then
    ⟨[req], .error (Error.New resp.Status)⟩
  else ⟨[req], parseSimilarsResponse L resp.Body⟩

/-! ## Quantifying over the seven exported operations -/

/-- An invocation of one of the seven exported operations with its arguments
(the multipart variants also carry the boundary their writer draws). -/
inductive Call where
  | Similar (boundary : String) (image : Reader)
  | SimilarURL (imageURL : URL)
  | SimilarID (id : String)
  | SimilarBase64 (data : String)
  | Similars (boundary : String) (image : Reader) (limit : Int)
  | SimilarsURL (imageURL : URL) (limit : Int)
  | SimilarsBase64 (data : String) (limit : Int)
  deriving DecidableEq, Repr

/-- The results of an operation of either family. -/
inductive Results where
  | similar (xs : List Similar)
  | faces (xs : List SimilarFace)
  deriving DecidableEq, Repr

/-- Relabel the results of an outcome. -/
def Outcome.map {α β : Type} (f : α → β) (o : Outcome α) : Outcome β :=
  ⟨o.sent, o.result.map f⟩

/-- Run the operation named by a call. -/
def Client.invoke (c : Client) (L : Lib) : Call → Outcome Results
  | .Similar b image => (c.Similar L b image).map Results.similar
  | .SimilarURL imageURL => (c.SimilarURL L imageURL).map Results.similar
  | .SimilarID id => (c.SimilarID L id).map Results.similar
  | .SimilarBase64 data => (c.SimilarBase64 L data).map Results.similar
  | .Similars b image limit => (c.Similars L b image limit).map Results.faces
  | .SimilarsURL imageURL limit => (c.SimilarsURL L imageURL limit).map Results.faces
  | .SimilarsBase64 data limit => (c.SimilarsBase64 L data limit).map Results.faces

/-- Whether the call belongs to the multi-result family. -/
def Call.multi : Call → Bool
  | .Similars _ _ _ | .SimilarsURL _ _ | .SimilarsBase64 _ _ => true
  | _ => false

/-- The endpoint path the operation appends to the base address. -/
def Call.endpoint (call : Call) : String :=
  if call.multi then "/facebox/similars" else "/facebox/similar"

/-- The image reader of the call, for the two operations that take one. -/
def Call.image : Call → Option Reader
  | .Similar _ image | .Similars _ image _ => some image
  | _ => none

/-- The read error that the image reader of the call reports, if any. -/
def Call.readError (call : Call) : Option Error :=
  match call.image with
  | some image => image.err
  | none => none

/-- The image URL of the call, for the two operations that take one. -/
def Call.imageURL : Call → Option URL
  | .SimilarURL imageURL | .SimilarsURL imageURL _ => some imageURL
  | _ => none

/-- The envelope parser that the operation named by the call applies to a
response body. -/
def parseFor (L : Lib) (call : Call) (r : Reader) : Except Error Results :=
  if call.multi then (parseSimilarsResponse L r).map Results.faces
  else (parseSimilarResponse L r).map Results.similar

/-- Success flag and error string of the envelope that the decoder of the
family of the call reads from a response body. -/
def Lib.envelope (L : Lib) (call : Call) (r : Reader) : Except Error (Bool × String) :=
  if call.multi then (L.DecodeSimilars r).map (fun e => (e.Success, e.Error))
  else (L.DecodeSimilar r).map (fun e => (e.Success, e.Error))

/-- What an operation returns once its request has been handed to the
transport: the transport error, the status error, or the parsed envelope. -/
def Client.answer (c : Client) (L : Lib) (call : Call) (req : Request) : Except Error Results :=
  match c.HTTPClient req with
  | .error err => .error err
  | .ok resp =>
    if resp.StatusCode < 200 || resp.StatusCode ≥ 300 then .error (Error.New resp.Status)
    else parseFor L call resp.Body

/-- What an operation returns once it has handed req to the transport (source
lines 45-53 and their six copies): the transport error, the error made of the
status text, or what the envelope parser gives for the body. -/
def Client.respond {α : Type} (c : Client) (req : Request)
    (parse : Reader → Except Error α) : Except Error α :=
  match c.HTTPClient req with
  | .error err => .error err
  | .ok resp =>
    if resp.StatusCode < 200 || resp.StatusCode ≥ 300 then .error (Error.New resp.Status)
    else parse resp.Body

/-! ## A library instance for closed examples

The theorems below hold for every Lib.  For evaluating the client on concrete
inputs, refLib implements the library calls on plain URLs (an optional scheme,
an optional host with an optional numeric port, a path and a query made of
unreserved characters, no escapes and no user information), where it returns
what net/url returns; any other input is rejected. -/

namespace Ref

/-- ASCII letter. -/
def isLetter (c : Char) : Bool :=
  ('a' ≤ c && c ≤ 'z') || ('A' ≤ c && c ≤ 'Z')

/-- ASCII digit. -/
def isDigit (c : Char) : Bool :=
  '0' ≤ c && c ≤ '9'

/-- Lower-case form of an ASCII letter. -/
def lower (c : Char) : Char :=
  if 'A' ≤ c && c ≤ 'Z' then Char.ofNat (c.toNat + 32) else c

/-- The function getScheme of net/url: seen is the scanned part, reversed,
and whole the complete input. -/
def getScheme (whole : List Char) : List Char → List Char → Except Error (List Char × List Char)
  | _, [] => .ok ([], whole)
  | seen, c :: cs =>
    if isLetter c then getScheme whole (c :: seen) cs
    else if isDigit c || c == '+' || c == '-' || c == '.' then
      if seen.isEmpty then .ok ([], whole) else getScheme whole (c :: seen) cs
    else if c == ':' then
      if seen.isEmpty then .error (Error.Ext "missing protocol scheme")
      else .ok (seen.reverse, cs)
    else .ok ([], whole)

/-- The function strings.Cut for a one-character separator. -/
def cut (sep : Char) : List Char → List Char × Option (List Char)
  | [] => ([], none)
  | c :: cs =>
    if c == sep then ([], some cs)
    else ((c :: (cut sep cs).1), (cut sep cs).2)

/-- Unreserved characters: letters, digits and the marks - _ . ~ -/
def unreserved (c : Char) : Bool :=
  isLetter c || isDigit c || c == '-' || c == '_' || c == '.' || c == '~'

/-- Characters of a plain path: unreserved characters and the slash. -/
def pathChar (c : Char) : Bool :=
  unreserved c || c == '/'

/-- Characters of a plain query: unreserved characters, the separators of
form encoding and the characters that url.QueryEscape produces. -/
def queryChar (c : Char) : Bool :=
  unreserved c || c == '=' || c == '&' || c == '%' || c == '+'

/-- A plain authority: a host name of letters, digits, dots and dashes with an
optional numeric port. -/
def plainHost (h : List Char) : Bool :=
  let hp := cut ':' h
  hp.1.all (fun c => isLetter c || isDigit c || c == '.' || c == '-') &&
    (match hp.2 with
     | none => true
     | some port => port.all isDigit)

/-- The function url.Parse on plain URLs. -/
def Parse (rawURL : String) : Except Error URL :=
  let fc := cut '#' rawURL.data
  let frag := fc.2.getD []
  if fc.1.any (fun c => c.toNat < 32 || c.toNat == 127) then
    .error (Error.Ext "net/url: invalid control character in URL")
  else if !(frag.all (fun c => isLetter c || isDigit c)) then
    .error (Error.Ext "unsupported fragment")
  else
  match getScheme fc.1 [] fc.1 with
  | .error e => .error e
  | .ok (scheme, rest) =>
    let scheme := scheme.map lower
    let qc := cut '?' rest
    let forceQuery := qc.2 == some []
    let rawQuery := qc.2.getD []
    let rest := qc.1
    if !(rawQuery.all queryChar) then .error (Error.Ext "unsupported query") else
    let base : URL :=
      { Scheme := String.mk scheme, Opaque := "", User := none, Host := "", Path := "",
        RawPath := "", OmitHost := false, ForceQuery := forceQuery,
        RawQuery := String.mk rawQuery, Fragment := String.mk frag, RawFragment := "" }
    match rest with
    | '/' :: '/' :: auth =>
      if scheme.isEmpty && auth.take 1 == ['/'] then
        if rest.all pathChar then .ok { base with Path := String.mk rest }
        else .error (Error.Ext "unsupported path")
      else
        let ac := cut '/' auth
        let path := match ac.2 with
          | none => []
          | some p => '/' :: p
        if !(plainHost ac.1) then .error (Error.Ext "unsupported authority")
        else if !(path.all pathChar) then .error (Error.Ext "unsupported path")
        else .ok { base with Host := String.mk ac.1, Path := String.mk path }
    | '/' :: _ =>
      if rest.all pathChar then
        .ok { base with OmitHost := !scheme.isEmpty, Path := String.mk rest }
      else .error (Error.Ext "unsupported path")
    | _ =>
      if !scheme.isEmpty then
        if rest.all pathChar then .ok { base with Opaque := String.mk rest }
        else .error (Error.Ext "unsupported opaque part")
      else if (cut '/' rest).1.contains ':' then
        .error (Error.Ext "first path segment in URL cannot contain colon")
      else if rest.all pathChar then .ok { base with Path := String.mk rest }
      else .error (Error.Ext "unsupported path")

/-- Worker of ParseQuery: the pieces between the separators &, the current
piece being collected in reverse. -/
def splitAmp : List Char → List Char → List (List Char)
  | cur, [] => [cur.reverse]
  | cur, c :: cs => if c == '&' then cur.reverse :: splitAmp [] cs else splitAmp (c :: cur) cs

/-- The function url.ParseQuery, with its error dropped, on queries whose keys
and values are made of unreserved characters; other pairs are skipped. -/
def ParseQuery (query : String) : Values :=
  (splitAmp [] query.data).foldl
    (fun m piece =>
      let kv := cut '=' piece
      if piece.isEmpty || !(kv.1.all unreserved) || !((kv.2.getD []).all unreserved) then m
      else Values.Add m (String.mk kv.1) (String.mk (kv.2.getD [])))
    []

/-- The method URL.String on plain URLs (nothing needs escaping). -/
def URLString (u : URL) : String :=
  let scheme := if u.Scheme != "" then u.Scheme ++ ":" else ""
  let hier :=
    if u.Opaque != "" then u.Opaque
    else
      let auth :=
        if u.Scheme != "" || u.Host != "" || u.User.isSome then
          if u.OmitHost && u.Host == "" && u.User.isNone then ""
          else
            (if u.Host != "" || u.Path != "" || u.User.isSome then "//" else "") ++
            (match u.User with
             | some ui => ui ++ "@"
             | none => "") ++ u.Host
        else ""
      let slash :=
        if u.Path != "" && u.Path.data.head? != some '/' && u.Host != "" then "/" else ""
      let dot :=
        if scheme == "" && auth == "" && (cut '/' u.Path.data).1.contains ':' then "./" else ""
      auth ++ slash ++ dot ++ u.Path
  let query := if u.ForceQuery || u.RawQuery != "" then "?" ++ u.RawQuery else ""
  let fragment := if u.Fragment != "" then "#" ++ u.Fragment else ""
  scheme ++ hier ++ query ++ fragment

/-- Bytes of an ASCII text. -/
def ascii (s : String) : Bytes :=
  s.data.map (fun c => Fin.ofNat c.toNat)

/-- A response body that delivers the given text and then io.EOF. -/
def body (s : String) : Reader :=
  { data := ascii s, err := none }

/-- First example body of the spec: a server-reported failure. -/
def failureJSON : String :=
  "\x7b\"success\":false,\"error\":\"no trained faces\"\x7d"

/-- Second example body of the spec: one match. -/
def successJSON : String :=
  "\x7b\"success\":true,\"similar\":[\x7b\"id\":\"1\",\"confidence\":0.9,\"name\":\"Alice\"\x7d]\x7d"

/-- The match of the second example body; 0.9 is 0x3FECCCCCCCCCCCCD as a
binary64 value. -/
def alice : Similar :=
  { ID := "1", Confidence := ⟨0x3FECCCCCCCCCCCCD⟩, Name := "Alice" }

/-- An example body of the multi-result family: one face with one match. -/
def facesJSON : String :=
  "\x7b\"success\":true,\"faces\":[\x7b\"rect\":\x7b\"top\":1,\"left\":2,\"width\":3,\"height\":4\x7d,"
    ++ "\"similar_faces\":[\x7b\"id\":\"1\",\"confidence\":0.9,\"name\":\"Alice\"\x7d]\x7d]\x7d"

/-- The face of the multi-result example body. -/
def aliceFace : SimilarFace :=
  { Rect := { Top := 1, Left := 2, Width := 3, Height := 4 }, SimilarFaces := [alice] }

/-- Whether the first byte of a body after JSON white space is an opening
brace.  An envelope is a JSON object, so a body for which this is false is
not valid JSON matching the envelope shape. -/
def startsObject : Bytes → Bool
  | [] => false
  | b :: bs =>
    if b.val = 32 || b.val = 9 || b.val = 10 || b.val = 13 then startsObject bs
    else b.val = 123

/-- The JSON decoder on the example bodies: what encoding/json decodes them
to.  A failing reader gives its error; the body null is accepted and leaves
the struct at its zero value; the body <html> is a syntax error at its first
byte; a body outside the examples is reported as such. -/
def DecodeSimilar (r : Reader) : Except Error SimilarResponse :=
  match r.err with
  | some e => .error e
  | none =>
    if r.data = ascii failureJSON then
      .ok { Success := false, Error := "no trained faces", Similar := [] }
    else if r.data = ascii successJSON then
      .ok { Success := true, Error := "", Similar := [alice] }
    else if r.data = ascii "null" then
      .ok { Success := false, Error := "", Similar := [] }
    else if r.data = ascii "<html>" then
      .error (Error.Ext "invalid character '<' looking for beginning of value")
    else .error (Error.Ext "body outside the examples")

/-- The JSON decoder of the multi-result family on the example bodies. -/
def DecodeSimilars (r : Reader) : Except Error SimilarsResponse :=
  match r.err with
  | some e => .error e
  | none =>
    if r.data = ascii failureJSON then
      .ok { Success := false, Error := "no trained faces", Faces := [] }
    else if r.data = ascii facesJSON then
      .ok { Success := true, Error := "", Faces := [aliceFace] }
    else if r.data = ascii "null" then
      .ok { Success := false, Error := "", Faces := [] }
    else if r.data = ascii "<html>" then
      .error (Error.Ext "invalid character '<' looking for beginning of value")
    else .error (Error.Ext "body outside the examples")

end Ref

/-- The library instance used in the closed examples. -/
def refLib : Lib :=
  { Parse := Ref.Parse, URLString := Ref.URLString, ParseQuery := Ref.ParseQuery,
    DecodeSimilar := Ref.DecodeSimilar, DecodeSimilars := Ref.DecodeSimilars }

/-- A transport that answers every request with the same response. -/
def mockServer (status : String) (code : Int) (body : String) : Request → Except Error Response :=
  fun _ => .ok { Status := status, StatusCode := code, Body := Ref.body body }

/-- A client of a mock server. -/
def mockClient (addr status : String) (code : Int) (body : String) : Client :=
  { addr := addr, HTTPClient := mockServer status code body }


/-! ## The seven operations as one pipeline

A second description of the operations, used to reason about all of them at
once: read the image (multipart variants), parse and check the endpoint, run
the remaining argument check, build the request, hand it to the transport and
handle the response.  The lemma invoke_eq_run shows that each embedded
operation computes exactly this. -/

/-- The limit that a multi-result operation writes for a given argument. -/
def effectiveLimit (limit : Int) : Int :=
  if limit < 1 then 5 else limit

/-- The multipart writer after the image bytes were written and it was closed. -/
def imageWriter (boundary : String) (data : Bytes) : Writer :=
  { boundary := boundary,
    parts := [{ FormName := "file", FileName := "image.dat",
                ContentType := "application/octet-stream", Data := data }],
    closed := true }

/-- The argument check an operation makes after the address check. -/
def Call.check : Call → Option Error
  | .SimilarURL imageURL | .SimilarsURL imageURL _ =>
    if imageURL.IsAbs then none else some (Error.New "url must be absolute")
  | .SimilarID id => if id == "" then some (Error.New "id can not be empty") else none
  | _ => none

/-- The request an operation builds from the parsed endpoint. -/
def Call.request (L : Lib) (u : URL) : Call → Request
  | .Similar b image =>
    { Method := "POST", URL := L.URLString u,
      Header := [("Content-Type", (imageWriter b image.data).FormDataContentType),
                 ("Accept", "application/json; charset=utf-8")],
      Body := Body.buffer (imageWriter b image.data) }
  | .SimilarURL imageURL =>
    { Method := "POST", URL := L.URLString u,
      Header := [("Accept", "application/json; charset=utf-8"),
                 ("Content-Type", "application/x-www-form-urlencoded")],
      Body := Body.text (Values.Encode [("url", [L.URLString imageURL])]) }
  | .SimilarID id =>
    { Method := "GET",
      URL := L.URLString { u with RawQuery := (Values.Set (L.Query u) "id" id).Encode },
      Header := [("Accept", "application/json; charset=utf-8")],
      Body := Body.none }
  | .SimilarBase64 data =>
    { Method := "POST", URL := L.URLString u,
      Header := [("Accept", "application/json; charset=utf-8"),
                 ("Content-Type", "application/x-www-form-urlencoded")],
      Body := Body.text (Values.Encode [("base64", [data])]) }
  | .Similars b image limit =>
    { Method := "POST",
      URL := L.URLString
        { u with RawQuery := Values.Encode [("limit", [Itoa (effectiveLimit limit)])] },
      Header := [("Content-Type", (imageWriter b image.data).FormDataContentType),
                 ("Accept", "application/json; charset=utf-8")],
      Body := Body.buffer (imageWriter b image.data) }
  | .SimilarsURL imageURL limit =>
    { Method := "POST", URL := L.URLString u,
      Header := [("Accept", "application/json; charset=utf-8"),
                 ("Content-Type", "application/x-www-form-urlencoded")],
      Body := Body.text (Values.Encode
        [("limit", [Itoa (effectiveLimit limit)]), ("url", [L.URLString imageURL])]) }
  | .SimilarsBase64 data limit =>
    { Method := "POST", URL := L.URLString u,
      Header := [("Accept", "application/json; charset=utf-8"),
                 ("Content-Type", "application/x-www-form-urlencoded")],
      Body := Body.text (Values.Encode
        [("limit", [Itoa (effectiveLimit limit)]), ("base64", [data])]) }

/-- The pipeline. -/
def Client.run (c : Client) (L : Lib) (call : Call) : Outcome Results :=
  match call.readError with
  | some err => ⟨[], .error err⟩
  | none =>
  match L.Parse (c.addr ++ call.endpoint) with
  | .error err => ⟨[], .error err⟩
  | .ok u =>
  if u.IsAbs = false then ⟨[], .error (Error.New "box address must be absolute")⟩ else
  match call.check with
  | some err => ⟨[], .error err⟩
  | none =>
  match L.Parse (call.request L u).URL with
  | .error err => ⟨[], .error err⟩
  | .ok _ => ⟨[call.request L u], c.answer L call (call.request L u)⟩

/-! ## Inputs of the closed examples -/

/-- A client of a mock server that answers 200 with the one-match body. -/
def okClient : Client :=
  mockClient "http://localhost:8080" "200 OK" 200 Ref.successJSON

/-- A client of a mock server that answers 200 with the one-face body. -/
def facesClient : Client :=
  mockClient "http://localhost:8080" "200 OK" 200 Ref.facesJSON

/-- A client of a mock server that answers 200 with the failure body. -/
def failClient : Client :=
  mockClient "http://localhost:8080" "200 OK" 200 Ref.failureJSON

/-- A client of a mock server that answers 500 with the one-match body. -/
def downClient : Client :=
  mockClient "http://localhost:8080" "500 Internal Server Error" 500 Ref.successJSON

/-- A client of a mock server that answers 200 with a body that is not JSON. -/
def garbageClient : Client :=
  mockClient "http://localhost:8080" "200 OK" 200 "<html>"

/-- A client of a mock server that answers 200 with the body null. -/
def nullClient : Client :=
  mockClient "http://localhost:8080" "200 OK" 200 "null"

/-- A client whose base address has no scheme. -/
def relClient : Client :=
  mockClient "facebox.local" "200 OK" 200 Ref.successJSON

/-- An absolute image URL. -/
def imageAt : URL :=
  { Scheme := "http", Opaque := "", User := none, Host := "example.com", Path := "/a.jpg",
    RawPath := "", OmitHost := false, ForceQuery := false, RawQuery := "", Fragment := "",
    RawFragment := "" }

/-- A relative image URL. -/
def imageRel : URL :=
  { imageAt with Scheme := "", Host := "", Path := "a.jpg" }

/-- An image reader that delivers three bytes. -/
def goodImage : Reader :=
  { data := [0xFF, 0xD8, 0xFF], err := none }

/-- An image reader whose read fails after two bytes. -/
def brokenImage : Reader :=
  { data := [0xFF, 0xD8], err := some (Error.Ext "unexpected EOF") }

/-! ## Proofs -/

theorem map_respond {α β : Type} (f : α → β) (req : Request) (x : Except Error Response)
    (parse : Reader → Except Error α) :
    Outcome.map f
      (match x with
       | .error err => ⟨[req], .error err⟩
       | .ok resp =>
         if resp.StatusCode < 200 || resp.StatusCode ≥ 300 then
           ⟨[req], .error (Error.New resp.Status)⟩
         else ⟨[req], parse resp.Body⟩) =
    ⟨[req],
      match x with
      | .error err => .error err
      | .ok resp =>
        if resp.StatusCode < 200 || resp.StatusCode ≥ 300 then .error (Error.New resp.Status)
        else (parse resp.Body).map f⟩ := by
  cases x with
  | error e => rfl
  | ok resp =>
    dsimp only
    split <;> rfl

theorem invoke_Similar (c : Client) (L : Lib) (boundary : String) (image : Reader) :
    c.invoke L (.Similar boundary image) = c.run L (.Similar boundary image) := by
  rcases image with ⟨d, _ | e⟩
  case mk.some =>
    simp [Client.invoke, Client.run, Client.Similar, Call.readError, Call.image, Call.endpoint,
      Call.multi, Call.check, Call.request, NewRequest, Client.answer, parseFor,
      Request.SetHeader, Header.Set, Values.Set, Values.Add, effectiveLimit, imageWriter,
      NewWriter, Writer.CreateFormFile, Writer.Close, ioCopy, appendToLast, Lib.Query,
      Outcome.map, Except.map]
  case mk.none =>
    cases hp : L.Parse (c.addr ++ "/facebox/similar") with
    | error e =>
      simp [Client.invoke, Client.run, Client.Similar, Call.readError, Call.image, Call.endpoint,
        Call.multi, Call.check, Call.request, NewRequest, Client.answer, parseFor,
        Request.SetHeader, Header.Set, Values.Set, Values.Add, effectiveLimit, imageWriter,
        NewWriter, Writer.CreateFormFile, Writer.Close, ioCopy, appendToLast, Lib.Query, hp,
        Outcome.map, Except.map]
    | ok u =>
      cases ha : u.IsAbs with
      | false =>
        simp [Client.invoke, Client.run, Client.Similar, Call.readError, Call.image,
          Call.endpoint, Call.multi, Call.check, Call.request, NewRequest, Client.answer,
          parseFor, Request.SetHeader, Header.Set, Values.Set, Values.Add, effectiveLimit,
          imageWriter, NewWriter, Writer.CreateFormFile, Writer.Close, ioCopy, appendToLast,
          Lib.Query, hp, ha, Outcome.map, Except.map]
      | true =>
        cases hn : L.Parse (Call.request L u (.Similar boundary ⟨d, none⟩)).URL with
        | error e =>
          have hn2 := hn
          simp only [Call.request, effectiveLimit, imageWriter, Lib.Query, Values.Set] at hn2
          simp [Client.invoke, Client.run, Client.Similar, Call.readError, Call.image,
            Call.endpoint, Call.multi, Call.check, Call.request, NewRequest, Client.answer,
            parseFor, Request.SetHeader, Header.Set, Values.Set, Values.Add, effectiveLimit,
            imageWriter, NewWriter, Writer.CreateFormFile, Writer.Close, ioCopy, appendToLast,
            Lib.Query, hp, ha, hn2, Outcome.map, Except.map]
        | ok u2 =>
          have hn2 := hn
          simp only [Call.request, effectiveLimit, imageWriter, Lib.Query, Values.Set] at hn2
          simp [Client.invoke, Client.run, Client.Similar, Call.readError, Call.image,
            Call.endpoint, Call.multi, Call.check, Call.request, NewRequest, Client.answer,
            parseFor, Request.SetHeader, Header.Set, Values.Set, Values.Add, effectiveLimit,
            imageWriter, NewWriter, Writer.CreateFormFile, Writer.Close, ioCopy, appendToLast,
            Lib.Query, hp, ha, hn2, map_respond]
          generalize c.HTTPClient _ = x
          cases x with
          | error e => simp [Outcome.map, Except.map]
          | ok resp => simp only [Outcome.map]; split <;> simp [Except.map]

theorem invoke_SimilarURL (c : Client) (L : Lib) (imageURL : URL) :
    c.invoke L (.SimilarURL imageURL) = c.run L (.SimilarURL imageURL) := by
  cases hp : L.Parse (c.addr ++ "/facebox/similar") with
  | error e =>
    simp [Client.invoke, Client.run, Client.SimilarURL, Call.readError, Call.image, Call.endpoint,
      Call.multi, Call.check, Call.request, NewRequest, Client.answer, parseFor,
      Request.SetHeader, Header.Set, Values.Set, Values.Add, effectiveLimit, imageWriter,
      NewWriter, Writer.CreateFormFile, Writer.Close, ioCopy, appendToLast, Lib.Query, hp,
      Outcome.map, Except.map]
  | ok u =>
    cases ha : u.IsAbs with
    | false =>
      simp [Client.invoke, Client.run, Client.SimilarURL, Call.readError, Call.image,
        Call.endpoint, Call.multi, Call.check, Call.request, NewRequest, Client.answer, parseFor,
        Request.SetHeader, Header.Set, Values.Set, Values.Add, effectiveLimit, imageWriter,
        NewWriter, Writer.CreateFormFile, Writer.Close, ioCopy, appendToLast, Lib.Query, hp, ha,
        Outcome.map, Except.map]
    | true =>
      cases hi : imageURL.IsAbs with
      | false =>
        simp [Client.invoke, Client.run, Client.SimilarURL, Call.readError, Call.image,
          Call.endpoint, Call.multi, Call.check, Call.request, NewRequest, Client.answer,
          parseFor, Request.SetHeader, Header.Set, Values.Set, Values.Add, effectiveLimit,
          imageWriter, NewWriter, Writer.CreateFormFile, Writer.Close, ioCopy, appendToLast,
          Lib.Query, hp, ha, hi, Outcome.map, Except.map]
      | true =>
        cases hn : L.Parse (Call.request L u (.SimilarURL imageURL)).URL with
        | error e =>
          have hn2 := hn
          simp only [Call.request, effectiveLimit, imageWriter, Lib.Query, Values.Set] at hn2
          simp [Client.invoke, Client.run, Client.SimilarURL, Call.readError, Call.image,
            Call.endpoint, Call.multi, Call.check, Call.request, NewRequest, Client.answer,
            parseFor, Request.SetHeader, Header.Set, Values.Set, Values.Add, effectiveLimit,
            imageWriter, NewWriter, Writer.CreateFormFile, Writer.Close, ioCopy, appendToLast,
            Lib.Query, hp, ha, hi, hn2, Outcome.map, Except.map]
        | ok u2 =>
          have hn2 := hn
          simp only [Call.request, effectiveLimit, imageWriter, Lib.Query, Values.Set] at hn2
          simp [Client.invoke, Client.run, Client.SimilarURL, Call.readError, Call.image,
            Call.endpoint, Call.multi, Call.check, Call.request, NewRequest, Client.answer,
            parseFor, Request.SetHeader, Header.Set, Values.Set, Values.Add, effectiveLimit,
            imageWriter, NewWriter, Writer.CreateFormFile, Writer.Close, ioCopy, appendToLast,
            Lib.Query, hp, ha, hi, hn2, map_respond]
          generalize c.HTTPClient _ = x
          cases x with
          | error e => simp [Outcome.map, Except.map]
          | ok resp => simp only [Outcome.map]; split <;> simp [Except.map]

theorem invoke_SimilarID (c : Client) (L : Lib) (id : String) :
    c.invoke L (.SimilarID id) = c.run L (.SimilarID id) := by
  cases hp : L.Parse (c.addr ++ "/facebox/similar") with
  | error e =>
    simp [Client.invoke, Client.run, Client.SimilarID, Call.readError, Call.image, Call.endpoint,
      Call.multi, Call.check, Call.request, NewRequest, Client.answer, parseFor,
      Request.SetHeader, Header.Set, Values.Set, Values.Add, effectiveLimit, imageWriter,
      NewWriter, Writer.CreateFormFile, Writer.Close, ioCopy, appendToLast, Lib.Query, hp,
      Outcome.map, Except.map]
  | ok u =>
    cases ha : u.IsAbs with
    | false =>
      simp [Client.invoke, Client.run, Client.SimilarID, Call.readError, Call.image,
        Call.endpoint, Call.multi, Call.check, Call.request, NewRequest, Client.answer, parseFor,
        Request.SetHeader, Header.Set, Values.Set, Values.Add, effectiveLimit, imageWriter,
        NewWriter, Writer.CreateFormFile, Writer.Close, ioCopy, appendToLast, Lib.Query, hp, ha,
        Outcome.map, Except.map]
    | true =>
      by_cases hi : id = ""
      ·
        simp [Client.invoke, Client.run, Client.SimilarID, Call.readError, Call.image,
          Call.endpoint, Call.multi, Call.check, Call.request, NewRequest, Client.answer,
          parseFor, Request.SetHeader, Header.Set, Values.Set, Values.Add, effectiveLimit,
          imageWriter, NewWriter, Writer.CreateFormFile, Writer.Close, ioCopy, appendToLast,
          Lib.Query, hp, ha, hi, Outcome.map, Except.map]
      ·
        cases hn : L.Parse (Call.request L u (.SimilarID id)).URL with
        | error e =>
          have hn2 := hn
          simp only [Call.request, effectiveLimit, imageWriter, Lib.Query, Values.Set] at hn2
          simp [Client.invoke, Client.run, Client.SimilarID, Call.readError, Call.image,
            Call.endpoint, Call.multi, Call.check, Call.request, NewRequest, Client.answer,
            parseFor, Request.SetHeader, Header.Set, Values.Set, Values.Add, effectiveLimit,
            imageWriter, NewWriter, Writer.CreateFormFile, Writer.Close, ioCopy, appendToLast,
            Lib.Query, hp, ha, hi, hn2, Outcome.map, Except.map]
        | ok u2 =>
          have hn2 := hn
          simp only [Call.request, effectiveLimit, imageWriter, Lib.Query, Values.Set] at hn2
          simp [Client.invoke, Client.run, Client.SimilarID, Call.readError, Call.image,
            Call.endpoint, Call.multi, Call.check, Call.request, NewRequest, Client.answer,
            parseFor, Request.SetHeader, Header.Set, Values.Set, Values.Add, effectiveLimit,
            imageWriter, NewWriter, Writer.CreateFormFile, Writer.Close, ioCopy, appendToLast,
            Lib.Query, hp, ha, hi, hn2, map_respond]
          generalize c.HTTPClient _ = x
          cases x with
          | error e => simp [Outcome.map, Except.map]
          | ok resp => simp only [Outcome.map]; split <;> simp [Except.map]

theorem invoke_SimilarBase64 (c : Client) (L : Lib) (data : String) :
    c.invoke L (.SimilarBase64 data) = c.run L (.SimilarBase64 data) := by
  cases hp : L.Parse (c.addr ++ "/facebox/similar") with
  | error e =>
    simp [Client.invoke, Client.run, Client.SimilarBase64, Call.readError, Call.image,
      Call.endpoint, Call.multi, Call.check, Call.request, NewRequest, Client.answer, parseFor,
      Request.SetHeader, Header.Set, Values.Set, Values.Add, effectiveLimit, imageWriter,
      NewWriter, Writer.CreateFormFile, Writer.Close, ioCopy, appendToLast, Lib.Query, hp,
      Outcome.map, Except.map]
  | ok u =>
    cases ha : u.IsAbs with
    | false =>
      simp [Client.invoke, Client.run, Client.SimilarBase64, Call.readError, Call.image,
        Call.endpoint, Call.multi, Call.check, Call.request, NewRequest, Client.answer, parseFor,
        Request.SetHeader, Header.Set, Values.Set, Values.Add, effectiveLimit, imageWriter,
        NewWriter, Writer.CreateFormFile, Writer.Close, ioCopy, appendToLast, Lib.Query, hp, ha,
        Outcome.map, Except.map]
    | true =>
      cases hn : L.Parse (Call.request L u (.SimilarBase64 data)).URL with
      | error e =>
        have hn2 := hn
        simp only [Call.request, effectiveLimit, imageWriter, Lib.Query, Values.Set] at hn2
        simp [Client.invoke, Client.run, Client.SimilarBase64, Call.readError, Call.image,
          Call.endpoint, Call.multi, Call.check, Call.request, NewRequest, Client.answer,
          parseFor, Request.SetHeader, Header.Set, Values.Set, Values.Add, effectiveLimit,
          imageWriter, NewWriter, Writer.CreateFormFile, Writer.Close, ioCopy, appendToLast,
          Lib.Query, hp, ha, hn2, Outcome.map, Except.map]
      | ok u2 =>
        have hn2 := hn
        simp only [Call.request, effectiveLimit, imageWriter, Lib.Query, Values.Set] at hn2
        simp [Client.invoke, Client.run, Client.SimilarBase64, Call.readError, Call.image,
          Call.endpoint, Call.multi, Call.check, Call.request, NewRequest, Client.answer,
          parseFor, Request.SetHeader, Header.Set, Values.Set, Values.Add, effectiveLimit,
          imageWriter, NewWriter, Writer.CreateFormFile, Writer.Close, ioCopy, appendToLast,
          Lib.Query, hp, ha, hn2, map_respond]
        generalize c.HTTPClient _ = x
        cases x with
        | error e => simp [Outcome.map, Except.map]
        | ok resp => simp only [Outcome.map]; split <;> simp [Except.map]

theorem invoke_Similars (c : Client) (L : Lib) (boundary : String) (image : Reader) (limit : Int) :
    c.invoke L (.Similars boundary image limit) = c.run L (.Similars boundary image limit) := by
  rcases image with ⟨d, _ | e⟩
  case mk.some =>
    simp [Client.invoke, Client.run, Client.Similars, Call.readError, Call.image, Call.endpoint,
      Call.multi, Call.check, Call.request, NewRequest, Client.answer, parseFor,
      Request.SetHeader, Header.Set, Values.Set, Values.Add, effectiveLimit, imageWriter,
      NewWriter, Writer.CreateFormFile, Writer.Close, ioCopy, appendToLast, Lib.Query,
      Outcome.map, Except.map]
  case mk.none =>
    cases hp : L.Parse (c.addr ++ "/facebox/similars") with
    | error e =>
      simp [Client.invoke, Client.run, Client.Similars, Call.readError, Call.image, Call.endpoint,
        Call.multi, Call.check, Call.request, NewRequest, Client.answer, parseFor,
        Request.SetHeader, Header.Set, Values.Set, Values.Add, effectiveLimit, imageWriter,
        NewWriter, Writer.CreateFormFile, Writer.Close, ioCopy, appendToLast, Lib.Query, hp,
        Outcome.map, Except.map]
    | ok u =>
      cases ha : u.IsAbs with
      | false =>
        simp [Client.invoke, Client.run, Client.Similars, Call.readError, Call.image,
          Call.endpoint, Call.multi, Call.check, Call.request, NewRequest, Client.answer,
          parseFor, Request.SetHeader, Header.Set, Values.Set, Values.Add, effectiveLimit,
          imageWriter, NewWriter, Writer.CreateFormFile, Writer.Close, ioCopy, appendToLast,
          Lib.Query, hp, ha, Outcome.map, Except.map]
      | true =>
        cases hn : L.Parse (Call.request L u (.Similars boundary ⟨d, none⟩ limit)).URL with
        | error e =>
          have hn2 := hn
          simp only [Call.request, effectiveLimit, imageWriter, Lib.Query, Values.Set] at hn2
          simp [Client.invoke, Client.run, Client.Similars, Call.readError, Call.image,
            Call.endpoint, Call.multi, Call.check, Call.request, NewRequest, Client.answer,
            parseFor, Request.SetHeader, Header.Set, Values.Set, Values.Add, effectiveLimit,
            imageWriter, NewWriter, Writer.CreateFormFile, Writer.Close, ioCopy, appendToLast,
            Lib.Query, hp, ha, hn2, Outcome.map, Except.map]
        | ok u2 =>
          have hn2 := hn
          simp only [Call.request, effectiveLimit, imageWriter, Lib.Query, Values.Set] at hn2
          simp [Client.invoke, Client.run, Client.Similars, Call.readError, Call.image,
            Call.endpoint, Call.multi, Call.check, Call.request, NewRequest, Client.answer,
            parseFor, Request.SetHeader, Header.Set, Values.Set, Values.Add, effectiveLimit,
            imageWriter, NewWriter, Writer.CreateFormFile, Writer.Close, ioCopy, appendToLast,
            Lib.Query, hp, ha, hn2, map_respond]
          generalize c.HTTPClient _ = x
          cases x with
          | error e => simp [Outcome.map, Except.map]
          | ok resp => simp only [Outcome.map]; split <;> simp [Except.map]

theorem invoke_SimilarsURL (c : Client) (L : Lib) (imageURL : URL) (limit : Int) :
    c.invoke L (.SimilarsURL imageURL limit) = c.run L (.SimilarsURL imageURL limit) := by
  cases hp : L.Parse (c.addr ++ "/facebox/similars") with
  | error e =>
    simp [Client.invoke, Client.run, Client.SimilarsURL, Call.readError, Call.image,
      Call.endpoint, Call.multi, Call.check, Call.request, NewRequest, Client.answer, parseFor,
      Request.SetHeader, Header.Set, Values.Set, Values.Add, effectiveLimit, imageWriter,
      NewWriter, Writer.CreateFormFile, Writer.Close, ioCopy, appendToLast, Lib.Query, hp,
      Outcome.map, Except.map]
  | ok u =>
    cases ha : u.IsAbs with
    | false =>
      simp [Client.invoke, Client.run, Client.SimilarsURL, Call.readError, Call.image,
        Call.endpoint, Call.multi, Call.check, Call.request, NewRequest, Client.answer, parseFor,
        Request.SetHeader, Header.Set, Values.Set, Values.Add, effectiveLimit, imageWriter,
        NewWriter, Writer.CreateFormFile, Writer.Close, ioCopy, appendToLast, Lib.Query, hp, ha,
        Outcome.map, Except.map]
    | true =>
      cases hi : imageURL.IsAbs with
      | false =>
        simp [Client.invoke, Client.run, Client.SimilarsURL, Call.readError, Call.image,
          Call.endpoint, Call.multi, Call.check, Call.request, NewRequest, Client.answer,
          parseFor, Request.SetHeader, Header.Set, Values.Set, Values.Add, effectiveLimit,
          imageWriter, NewWriter, Writer.CreateFormFile, Writer.Close, ioCopy, appendToLast,
          Lib.Query, hp, ha, hi, Outcome.map, Except.map]
      | true =>
        cases hn : L.Parse (Call.request L u (.SimilarsURL imageURL limit)).URL with
        | error e =>
          have hn2 := hn
          simp only [Call.request, effectiveLimit, imageWriter, Lib.Query, Values.Set] at hn2
          simp [Client.invoke, Client.run, Client.SimilarsURL, Call.readError, Call.image,
            Call.endpoint, Call.multi, Call.check, Call.request, NewRequest, Client.answer,
            parseFor, Request.SetHeader, Header.Set, Values.Set, Values.Add, effectiveLimit,
            imageWriter, NewWriter, Writer.CreateFormFile, Writer.Close, ioCopy, appendToLast,
            Lib.Query, hp, ha, hi, hn2, Outcome.map, Except.map]
        | ok u2 =>
          have hn2 := hn
          simp only [Call.request, effectiveLimit, imageWriter, Lib.Query, Values.Set] at hn2
          simp [Client.invoke, Client.run, Client.SimilarsURL, Call.readError, Call.image,
            Call.endpoint, Call.multi, Call.check, Call.request, NewRequest, Client.answer,
            parseFor, Request.SetHeader, Header.Set, Values.Set, Values.Add, effectiveLimit,
            imageWriter, NewWriter, Writer.CreateFormFile, Writer.Close, ioCopy, appendToLast,
            Lib.Query, hp, ha, hi, hn2, map_respond]
          generalize c.HTTPClient _ = x
          cases x with
          | error e => simp [Outcome.map, Except.map]
          | ok resp => simp only [Outcome.map]; split <;> simp [Except.map]

theorem invoke_SimilarsBase64 (c : Client) (L : Lib) (data : String) (limit : Int) :
    c.invoke L (.SimilarsBase64 data limit) = c.run L (.SimilarsBase64 data limit) := by
  cases hp : L.Parse (c.addr ++ "/facebox/similars") with
  | error e =>
    simp [Client.invoke, Client.run, Client.SimilarsBase64, Call.readError, Call.image,
      Call.endpoint, Call.multi, Call.check, Call.request, NewRequest, Client.answer, parseFor,
      Request.SetHeader, Header.Set, Values.Set, Values.Add, effectiveLimit, imageWriter,
      NewWriter, Writer.CreateFormFile, Writer.Close, ioCopy, appendToLast, Lib.Query, hp,
      Outcome.map, Except.map]
  | ok u =>
    cases ha : u.IsAbs with
    | false =>
      simp [Client.invoke, Client.run, Client.SimilarsBase64, Call.readError, Call.image,
        Call.endpoint, Call.multi, Call.check, Call.request, NewRequest, Client.answer, parseFor,
        Request.SetHeader, Header.Set, Values.Set, Values.Add, effectiveLimit, imageWriter,
        NewWriter, Writer.CreateFormFile, Writer.Close, ioCopy, appendToLast, Lib.Query, hp, ha,
        Outcome.map, Except.map]
    | true =>
      cases hn : L.Parse (Call.request L u (.SimilarsBase64 data limit)).URL with
      | error e =>
        have hn2 := hn
        simp only [Call.request, effectiveLimit, imageWriter, Lib.Query, Values.Set] at hn2
        simp [Client.invoke, Client.run, Client.SimilarsBase64, Call.readError, Call.image,
          Call.endpoint, Call.multi, Call.check, Call.request, NewRequest, Client.answer,
          parseFor, Request.SetHeader, Header.Set, Values.Set, Values.Add, effectiveLimit,
          imageWriter, NewWriter, Writer.CreateFormFile, Writer.Close, ioCopy, appendToLast,
          Lib.Query, hp, ha, hn2, Outcome.map, Except.map]
      | ok u2 =>
        have hn2 := hn
        simp only [Call.request, effectiveLimit, imageWriter, Lib.Query, Values.Set] at hn2
        simp [Client.invoke, Client.run, Client.SimilarsBase64, Call.readError, Call.image,
          Call.endpoint, Call.multi, Call.check, Call.request, NewRequest, Client.answer,
          parseFor, Request.SetHeader, Header.Set, Values.Set, Values.Add, effectiveLimit,
          imageWriter, NewWriter, Writer.CreateFormFile, Writer.Close, ioCopy, appendToLast,
          Lib.Query, hp, ha, hn2, map_respond]
        generalize c.HTTPClient _ = x
        cases x with
        | error e => simp [Outcome.map, Except.map]
        | ok resp => simp only [Outcome.map]; split <;> simp [Except.map]


theorem invoke_eq_run (c : Client) (L : Lib) (call : Call) :
    c.invoke L call = c.run L call := by
  cases call with
  | Similar b image => exact invoke_Similar c L b image
  | SimilarURL imageURL => exact invoke_SimilarURL c L imageURL
  | SimilarID id => exact invoke_SimilarID c L id
  | SimilarBase64 data => exact invoke_SimilarBase64 c L data
  | Similars b image limit => exact invoke_Similars c L b image limit
  | SimilarsURL imageURL limit => exact invoke_SimilarsURL c L imageURL limit
  | SimilarsBase64 data limit => exact invoke_SimilarsBase64 c L data limit

/-- Every character of a decimal rendering is a digit. -/
theorem toDigitsCore_digits (fuel : Nat) : ∀ (n : Nat) (ds : List Char),
    (∀ ch ∈ ds, ('0' ≤ ch ∧ ch ≤ '9')) →
    ∀ ch ∈ Nat.toDigitsCore 10 fuel n ds, ('0' ≤ ch ∧ ch ≤ '9') := by
  induction fuel with
  | zero => intro n ds h; simpa [Nat.toDigitsCore] using h
  | succ k ih =>
    intro n ds h
    have hd : '0' ≤ Nat.digitChar (n % 10) ∧ Nat.digitChar (n % 10) ≤ '9' := by
      have hlt : n % 10 < 10 := Nat.mod_lt _ (by decide)
      interval_cases (n % 10) <;> decide
    have h2 : ∀ ch ∈ Nat.digitChar (n % 10) :: ds, ('0' ≤ ch ∧ ch ≤ '9') := by
      intro ch hch
      rcases List.mem_cons.mp hch with rfl | hch
      · exact hd
      · exact h ch hch
    unfold Nat.toDigitsCore
    dsimp only
    split
    · exact h2
    · exact ih _ _ h2

theorem repr_digits (n : Nat) : ∀ ch ∈ (Nat.repr n).data, ('0' ≤ ch ∧ ch ≤ '9') := by
  unfold Nat.repr Nat.toDigits
  simpa [List.asString] using toDigitsCore_digits (n + 1) n [] (by simp)

theorem escapeChars_unreserved (cs : List Char) (h : ∀ ch ∈ cs, shouldEscape ch = false) :
    escapeChars cs = cs := by
  induction cs with
  | nil => rfl
  | cons c cs ih =>
    have hc := h c (List.mem_cons_self _ _)
    have ht := ih (fun ch hch => h ch (List.mem_cons_of_mem _ hch))
    simp [escapeChars, escapeChar, hc, ht]

theorem shouldEscape_digit (ch : Char) (h : '0' ≤ ch ∧ ch ≤ '9') : shouldEscape ch = false := by
  simp [shouldEscape, h.1, h.2]

theorem QueryEscape_repr (n : Nat) : QueryEscape (Nat.repr n) = Nat.repr n := by
  unfold QueryEscape
  rw [escapeChars_unreserved _ (fun ch hch => shouldEscape_digit ch (repr_digits n ch hch))]

/-- A decimal rendering needs no escaping. -/
theorem QueryEscape_Itoa (i : Int) : QueryEscape (Itoa i) = Itoa i := by
  cases i with
  | ofNat n => exact QueryEscape_repr n
  | negSucc n =>
    have h := QueryEscape_repr (n + 1)
    unfold QueryEscape at h ⊢
    have hd : (Itoa (Int.negSucc n)).data = '-' :: (Nat.repr (n + 1)).data := by
      simp [Itoa]
    rw [hd]
    have h3 : escapeChars (Nat.repr (n + 1)).data = (Nat.repr (n + 1)).data := by
      have := congrArg String.data h
      simpa using this
    have h4 : escapeChar '-' = ['-'] := by decide
    simp [escapeChars, h3, h4, Itoa]
    rfl

theorem QueryEscape_limit : QueryEscape "limit" = "limit" := by decide
theorem QueryEscape_url : QueryEscape "url" = "url" := by decide
theorem QueryEscape_base64 : QueryEscape "base64" = "base64" := by decide
theorem QueryEscape_id : QueryEscape "id" = "id" := by decide

/-- Wire form of a one-field form. -/
theorem Encode_single (k v : String) :
    Values.Encode [(k, [v])] = QueryEscape k ++ "=" ++ QueryEscape v := by
  simp [Values.Encode, Values.sortByKey, Values.insertByKey, Values.allPieces, Values.pieces,
    Values.joinAmp]

/-- Wire form of the form of SimilarsURL. -/
theorem Encode_limit_url (n s : String) :
    Values.Encode [("limit", [n]), ("url", [s])] =
      "limit=" ++ QueryEscape n ++ "&url=" ++ QueryEscape s := by
  have h : ("limit" : String).data < ("url" : String).data := by decide
  have e : ("&" : String) ++ "url=" = "&url=" := by decide
  simp [Values.Encode, Values.sortByKey, Values.insertByKey, Values.allPieces, Values.pieces,
    Values.joinAmp, h, QueryEscape_limit, QueryEscape_url, String.append_assoc]
  rw [← String.append_assoc "&" "url=", e]

/-- Wire form of the form of SimilarsBase64. -/
theorem Encode_limit_base64 (n d : String) :
    Values.Encode [("limit", [n]), ("base64", [d])] =
      "base64=" ++ QueryEscape d ++ "&limit=" ++ QueryEscape n := by
  have h : ¬ ("limit" : String).data < ("base64" : String).data := by decide
  have e : ("&" : String) ++ "limit=" = "&limit=" := by decide
  simp [Values.Encode, Values.sortByKey, Values.insertByKey, Values.allPieces, Values.pieces,
    Values.joinAmp, h, QueryEscape_limit, QueryEscape_base64, String.append_assoc]
  rw [← String.append_assoc "&" "limit=", e]



/-- The pipeline hands over a request only after every check has passed, and
then returns what the transport and the parser give for that request. -/
theorem run_sent (c : Client) (L : Lib) (call : Call) (req : Request)
    (h : req ∈ (c.run L call).sent) :
    ∃ u, L.Parse (c.addr ++ call.endpoint) = .ok u ∧ u.IsAbs = true ∧
      call.readError = none ∧ call.check = none ∧
      (∃ u2, L.Parse (call.request L u).URL = .ok u2) ∧
      req = call.request L u ∧ c.run L call = ⟨[req], c.answer L call req⟩ := by
  unfold Client.run at h ⊢
  cases hr : call.readError with
  | some e => simp [hr] at h
  | none =>
    cases hp : L.Parse (c.addr ++ call.endpoint) with
    | error e => simp [hr, hp] at h
    | ok u =>
      cases ha : u.IsAbs with
      | false => simp [hr, hp, ha] at h
      | true =>
        cases hc : call.check with
        | some e => simp [hr, hp, ha, hc] at h
        | none =>
          cases hn : L.Parse (call.request L u).URL with
          | error e => simp [hr, hp, ha, hc, hn] at h
          | ok u2 =>
            simp [hr, hp, ha, hc, hn] at h
            subst h
            exact ⟨u, rfl, ha, rfl, rfl, ⟨u2, hn⟩, rfl, by simp [ha, hc, hn]⟩

/-- The pipeline when every check passes. -/
theorem run_ok (c : Client) (L : Lib) (call : Call) (u u2 : URL)
    (hp : L.Parse (c.addr ++ call.endpoint) = .ok u) (ha : u.IsAbs = true)
    (hr : call.readError = none) (hc : call.check = none)
    (hn : L.Parse (call.request L u).URL = .ok u2) :
    c.run L call = ⟨[call.request L u], c.answer L call (call.request L u)⟩ := by
  simp [Client.run, hp, ha, hr, hc, hn]

/-- The pipeline never reaches the transport with a relative endpoint. -/
theorem run_not_abs (c : Client) (L : Lib) (call : Call) (u : URL)
    (hp : L.Parse (c.addr ++ call.endpoint) = .ok u) (ha : u.IsAbs = false) :
    c.run L call =
      ⟨[], match call.readError with
           | some e => .error e
           | none => .error (Error.New "box address must be absolute")⟩ := by
  unfold Client.run
  cases hr : call.readError with
  | some e => rfl
  | none => simp [hp, ha]

theorem answer_of_response (c : Client) (L : Lib) (call : Call) (req : Request)
    (resp : Response) (hdo : c.HTTPClient req = .ok resp) :
    c.answer L call req =
      if resp.StatusCode < 200 ∨ resp.StatusCode ≥ 300 then .error (Error.New resp.Status)
      else parseFor L call resp.Body := by
  simp [Client.answer, hdo]

theorem outcome_map_inj {α β : Type} (f : α → β) (hf : Function.Injective f)
    (o : Outcome α) (s : List Request) (r : Except Error α)
    (h : o.map f = ⟨s, Except.map f r⟩) : o = ⟨s, r⟩ := by
  cases o with
  | mk s0 r0 =>
    simp only [Outcome.map, Outcome.mk.injEq] at h
    obtain ⟨hs, hr⟩ := h
    subst hs
    congr
    cases r0 with
    | error e0 =>
      cases r with
      | error e => simpa [Except.map] using hr
      | ok a => simp [Except.map] at hr
    | ok a0 =>
      cases r with
      | error e => simp [Except.map] at hr
      | ok a =>
        simp only [Except.map, Except.ok.injEq] at hr
        rw [hf hr]

theorem similar_injective : Function.Injective Results.similar := by
  intro a b h
  cases h
  rfl

theorem faces_injective : Function.Injective Results.faces := by
  intro a b h
  cases h
  rfl

theorem answer_respond_similar (c : Client) (L : Lib) (call : Call) (req : Request)
    (hm : call.multi = false) :
    c.answer L call req =
      Except.map Results.similar (c.respond req (parseSimilarResponse L)) := by
  unfold Client.answer Client.respond parseFor
  rw [hm]
  cases c.HTTPClient req with
  | error e => rfl
  | ok resp =>
    dsimp only
    split <;> simp [Except.map]

theorem answer_respond_faces (c : Client) (L : Lib) (call : Call) (req : Request)
    (hm : call.multi = true) :
    c.answer L call req =
      Except.map Results.faces (c.respond req (parseSimilarsResponse L)) := by
  unfold Client.answer Client.respond parseFor
  rw [hm]
  cases c.HTTPClient req with
  | error e => rfl
  | ok resp =>
    dsimp only
    split <;> simp [Except.map]

/-- A legacy operation whose checks all pass hands its request to the
transport and returns what the transport and parseSimilarResponse give. -/
theorem sends_similar (c : Client) (L : Lib) (call : Call) (o : Outcome (List Similar))
    (u u2 : URL) (ho : c.invoke L call = o.map Results.similar) (hm : call.multi = false)
    (hp : L.Parse (c.addr ++ call.endpoint) = .ok u) (ha : u.IsAbs = true)
    (hr : call.readError = none) (hc : call.check = none)
    (hn : L.Parse (call.request L u).URL = .ok u2) :
    o = ⟨[call.request L u], c.respond (call.request L u) (parseSimilarResponse L)⟩ := by
  have h := run_ok c L call u u2 hp ha hr hc hn
  rw [← invoke_eq_run, ho, answer_respond_similar c L call _ hm] at h
  exact outcome_map_inj _ similar_injective _ _ _ h

/-- A multi-result operation whose checks all pass hands its request to the
transport and returns what the transport and parseSimilarsResponse give. -/
theorem sends_faces (c : Client) (L : Lib) (call : Call) (o : Outcome (List SimilarFace))
    (u u2 : URL) (ho : c.invoke L call = o.map Results.faces) (hm : call.multi = true)
    (hp : L.Parse (c.addr ++ call.endpoint) = .ok u) (ha : u.IsAbs = true)
    (hr : call.readError = none) (hc : call.check = none)
    (hn : L.Parse (call.request L u).URL = .ok u2) :
    o = ⟨[call.request L u], c.respond (call.request L u) (parseSimilarsResponse L)⟩ := by
  have h := run_ok c L call u u2 hp ha hr hc hn
  rw [← invoke_eq_run, ho, answer_respond_faces c L call _ hm] at h
  exact outcome_map_inj _ faces_injective _ _ _ h

theorem request_Similars_URL (L : Lib) (u : URL) (b : String) (image : Reader) (limit : Int) :
    (Call.request L u (.Similars b image limit)).URL =
      L.URLString { u with RawQuery := "limit=" ++ Itoa (if limit < 1 then 5 else limit) } := by
  simp only [Call.request, Encode_single, QueryEscape_limit, QueryEscape_Itoa, effectiveLimit]
  rfl

theorem request_SimilarsURL_Body (L : Lib) (u imageURL : URL) (limit : Int) :
    (Call.request L u (.SimilarsURL imageURL limit)).Body =
      Body.text ("limit=" ++ Itoa (if limit < 1 then 5 else limit)
        ++ "&url=" ++ QueryEscape (L.URLString imageURL)) := by
  simp only [Call.request, Encode_limit_url, QueryEscape_Itoa, effectiveLimit]

theorem request_SimilarsBase64_Body (L : Lib) (u : URL) (data : String) (limit : Int) :
    (Call.request L u (.SimilarsBase64 data limit)).Body =
      Body.text ("base64=" ++ QueryEscape data
        ++ "&limit=" ++ Itoa (if limit < 1 then 5 else limit)) := by
  simp only [Call.request, Encode_limit_base64, QueryEscape_Itoa, effectiveLimit]

theorem request_SimilarURL_Body (L : Lib) (u imageURL : URL) :
    (Call.request L u (.SimilarURL imageURL)).Body =
      Body.text ("url=" ++ QueryEscape (L.URLString imageURL)) := by
  simp only [Call.request, Encode_single, QueryEscape_url]
  rfl

theorem request_SimilarBase64_Body (L : Lib) (u : URL) (data : String) :
    (Call.request L u (.SimilarBase64 data)).Body =
      Body.text ("base64=" ++ QueryEscape data) := by
  simp only [Call.request, Encode_single, QueryEscape_base64]
  rfl

/-! ## The claims -/

theorem invoke_sent (c : Client) (L : Lib) (call : Call) (req : Request)
    (h : req ∈ (c.invoke L call).sent) :
    ∃ u, L.Parse (c.addr ++ call.endpoint) = .ok u ∧ u.IsAbs = true ∧
      call.readError = none ∧ call.check = none ∧
      (∃ u2, L.Parse (call.request L u).URL = .ok u2) ∧
      req = call.request L u ∧ c.invoke L call = ⟨[req], c.answer L call req⟩ := by
  rw [invoke_eq_run] at h ⊢
  exact run_sent c L call req h

theorem effectiveLimit_idem (limit : Int) :
    effectiveLimit (effectiveLimit limit) = effectiveLimit limit := by
  unfold effectiveLimit
  split <;> simp

theorem limit_same_outcome (c : Client) (L : Lib) (boundary : String) (image : Reader)
    (imageURL : URL) (data : String) (limit : Int) :
    c.Similars L boundary image limit =
        c.Similars L boundary image (if limit < 1 then 5 else limit) ∧
    c.SimilarsURL L imageURL limit =
        c.SimilarsURL L imageURL (if limit < 1 then 5 else limit) ∧
    c.SimilarsBase64 L data limit =
        c.SimilarsBase64 L data (if limit < 1 then 5 else limit) := by
  have h : (if (if limit < 1 then (5 : Int) else limit) < 1 then (5 : Int)
      else (if limit < 1 then 5 else limit)) = (if limit < 1 then 5 else limit) :=
    effectiveLimit_idem limit
  refine ⟨?_, ?_, ?_⟩
  · simp only [Client.Similars, h]
  · simp only [Client.SimilarsURL, h]
  · simp only [Client.SimilarsBase64, h]

theorem limit_irrelevant_on_failed_check (c : Client) (L : Lib) (boundary : String)
    (image : Reader) (imageURL : URL) (data : String) (limit limit2 : Int) :
    ((image.err ≠ none ∨
        ∀ u, L.Parse (c.addr ++ "/facebox/similars") = .ok u → u.IsAbs = false) →
      c.Similars L boundary image limit = c.Similars L boundary image limit2) ∧
    ((imageURL.IsAbs = false ∨
        ∀ u, L.Parse (c.addr ++ "/facebox/similars") = .ok u → u.IsAbs = false) →
      c.SimilarsURL L imageURL limit = c.SimilarsURL L imageURL limit2) ∧
    ((∀ u, L.Parse (c.addr ++ "/facebox/similars") = .ok u → u.IsAbs = false) →
      c.SimilarsBase64 L data limit = c.SimilarsBase64 L data limit2) := by
  refine ⟨?_, ?_, ?_⟩
  · intro h
    rcases image with ⟨d, _ | e⟩
    · rcases h with h | h
      · exact absurd rfl h
      · cases hp : L.Parse (c.addr ++ "/facebox/similars") with
        | error e => simp [Client.Similars, Writer.CreateFormFile, Writer.Close, ioCopy, hp]
        | ok u =>
          simp [Client.Similars, Writer.CreateFormFile, Writer.Close, ioCopy, hp, h u hp]
    · simp [Client.Similars, Writer.CreateFormFile, Writer.Close, ioCopy]
  · intro h
    cases hp : L.Parse (c.addr ++ "/facebox/similars") with
    | error e => simp [Client.SimilarsURL, hp]
    | ok u =>
      cases ha : u.IsAbs with
      | false => simp [Client.SimilarsURL, hp, ha]
      | true =>
        rcases h with h | h
        · simp [Client.SimilarsURL, hp, ha, h]
        · rw [h u hp] at ha
          cases ha
  · intro h
    cases hp : L.Parse (c.addr ++ "/facebox/similars") with
    | error e => simp [Client.SimilarsBase64, hp]
    | ok u => simp [Client.SimilarsBase64, hp, h u hp]

/-- C1: for every integer limit, each multi-result operation whose other
inputs pass its checks (the image is read, the endpoint parses to an absolute
URL, the image URL is absolute, http.NewRequest accepts the URL string) hands
the transport exactly one request, in which the limit is written as the
decimal rendering of 5 when limit < 1 and of limit itself otherwise: in the
URL query for Similars, in the form body for SimilarsURL and SimilarsBase64;
what it returns is what the transport and the parser give for that request,
so a limit below 1 never makes the operation fail.  When one of the checks
fails, the outcome is the same for every limit; and in every case the call
with a limit below 1 has exactly the outcome of the call with limit 5. -/
theorem limit_written_into_request (c : Client) (L : Lib) (boundary : String)
    (image : Reader) (imageURL : URL) (data : String) (limit : Int) :
    (∀ u : URL, L.Parse (c.addr ++ "/facebox/similars") = .ok u → u.IsAbs = true →
      (image.err = none →
        (∃ u2, L.Parse (L.URLString
          { u with RawQuery := "limit=" ++ Itoa (if limit < 1 then 5 else limit) }) = .ok u2) →
        ∃ req : Request, req.Method = "POST" ∧
          req.URL = L.URLString
            { u with RawQuery := "limit=" ++ Itoa (if limit < 1 then 5 else limit) } ∧
          c.Similars L boundary image limit =
            ⟨[req], c.respond req (parseSimilarsResponse L)⟩) ∧
      (imageURL.IsAbs = true → (∃ u2, L.Parse (L.URLString u) = .ok u2) →
        ∃ req : Request, req.Method = "POST" ∧ req.URL = L.URLString u ∧
          req.Body = Body.text ("limit=" ++ Itoa (if limit < 1 then 5 else limit)
            ++ "&url=" ++ QueryEscape (L.URLString imageURL)) ∧
          c.SimilarsURL L imageURL limit =
            ⟨[req], c.respond req (parseSimilarsResponse L)⟩) ∧
      ((∃ u2, L.Parse (L.URLString u) = .ok u2) →
        ∃ req : Request, req.Method = "POST" ∧ req.URL = L.URLString u ∧
          req.Body = Body.text ("base64=" ++ QueryEscape data
            ++ "&limit=" ++ Itoa (if limit < 1 then 5 else limit)) ∧
          c.SimilarsBase64 L data limit =
            ⟨[req], c.respond req (parseSimilarsResponse L)⟩)) ∧
    (∀ limit2 : Int,
      ((image.err ≠ none ∨
          ∀ u, L.Parse (c.addr ++ "/facebox/similars") = .ok u → u.IsAbs = false) →
        c.Similars L boundary image limit = c.Similars L boundary image limit2) ∧
      ((imageURL.IsAbs = false ∨
          ∀ u, L.Parse (c.addr ++ "/facebox/similars") = .ok u → u.IsAbs = false) →
        c.SimilarsURL L imageURL limit = c.SimilarsURL L imageURL limit2) ∧
      ((∀ u, L.Parse (c.addr ++ "/facebox/similars") = .ok u → u.IsAbs = false) →
        c.SimilarsBase64 L data limit = c.SimilarsBase64 L data limit2)) ∧
    (c.Similars L boundary image limit =
        c.Similars L boundary image (if limit < 1 then 5 else limit) ∧
     c.SimilarsURL L imageURL limit =
        c.SimilarsURL L imageURL (if limit < 1 then 5 else limit) ∧
     c.SimilarsBase64 L data limit =
        c.SimilarsBase64 L data (if limit < 1 then 5 else limit)) ∧
    (∀ req ∈ (c.Similars L boundary image limit).sent,
      ∃ u, L.Parse (c.addr ++ "/facebox/similars") = .ok u ∧
        req.URL = L.URLString
          { u with RawQuery := "limit=" ++ Itoa (if limit < 1 then 5 else limit) }) ∧
    (∀ req ∈ (c.SimilarsURL L imageURL limit).sent,
      req.Body = Body.text ("limit=" ++ Itoa (if limit < 1 then 5 else limit)
        ++ "&url=" ++ QueryEscape (L.URLString imageURL))) ∧
    (∀ req ∈ (c.SimilarsBase64 L data limit).sent,
      req.Body = Body.text ("base64=" ++ QueryEscape data
        ++ "&limit=" ++ Itoa (if limit < 1 then 5 else limit))) := by
  refine ⟨?_,
    fun limit2 => limit_irrelevant_on_failed_check c L boundary image imageURL data limit limit2,
    limit_same_outcome c L boundary image imageURL data limit, ?_, ?_, ?_⟩
  · intro u hp ha
    refine ⟨?_, ?_, ?_⟩
    · intro hr hn
      obtain ⟨u2, hn⟩ := hn
      rw [← request_Similars_URL L u boundary image limit] at hn
      exact ⟨_, rfl, request_Similars_URL L u boundary image limit,
        sends_faces c L (.Similars boundary image limit) _ u u2 rfl rfl hp ha hr rfl hn⟩
    · intro hi hn
      obtain ⟨u2, hn⟩ := hn
      exact ⟨_, rfl, rfl, request_SimilarsURL_Body L u imageURL limit,
        sends_faces c L (.SimilarsURL imageURL limit) _ u u2 rfl rfl hp ha rfl
          (by simp [Call.check, hi]) hn⟩
    · intro hn
      obtain ⟨u2, hn⟩ := hn
      exact ⟨_, rfl, rfl, request_SimilarsBase64_Body L u data limit,
        sends_faces c L (.SimilarsBase64 data limit) _ u u2 rfl rfl hp ha rfl rfl hn⟩
  · intro req hreq
    obtain ⟨u, hp, -, -, -, -, hq, -⟩ :=
      invoke_sent c L (.Similars boundary image limit) req hreq
    exact ⟨u, hp, by rw [hq]; exact request_Similars_URL L u boundary image limit⟩
  · intro req hreq
    obtain ⟨u, -, -, -, -, -, hq, -⟩ :=
      invoke_sent c L (.SimilarsURL imageURL limit) req hreq
    rw [hq]
    exact request_SimilarsURL_Body L u imageURL limit
  · intro req hreq
    obtain ⟨u, -, -, -, -, -, hq, -⟩ :=
      invoke_sent c L (.SimilarsBase64 data limit) req hreq
    rw [hq]
    exact request_SimilarsBase64_Body L u data limit

/-- Witness of C1: SimilarsBase64 with limit -3 against the mock server hands
the transport one POST with the form body base64=aGk%3D&limit=5 and returns
the face of the response. -/
theorem limit_written_into_request_witness :
    (∃ req : Request, req.Method = "POST" ∧
      req.URL = refLib.URLString
        { imageAt with Host := "localhost:8080", Path := "/facebox/similars" } ∧
      req.Body = Body.text ("base64=" ++ QueryEscape "aGk="
        ++ "&limit=" ++ Itoa (if (-3 : Int) < 1 then 5 else -3)) ∧
      facesClient.SimilarsBase64 refLib "aGk=" (-3) =
        ⟨[req], facesClient.respond req (parseSimilarsResponse refLib)⟩) ∧
    facesClient.SimilarsBase64 refLib "aGk=" (-3) =
      ⟨[⟨"POST", "http://localhost:8080/facebox/similars",
          [("Accept", "application/json; charset=utf-8"),
           ("Content-Type", "application/x-www-form-urlencoded")],
          Body.text "base64=aGk%3D&limit=5"⟩],
       .ok [Ref.aliceFace]⟩ :=
  ⟨((limit_written_into_request facesClient refLib "b" goodImage imageAt "aGk=" (-3)).1
      { imageAt with Host := "localhost:8080", Path := "/facebox/similars" }
      (by decide) (by decide)).2.2
      ⟨{ imageAt with Host := "localhost:8080", Path := "/facebox/similars" }, by decide⟩,
   by decide⟩

/-- What an operation returns for a response with a 2xx status. -/
theorem invoke_result_2xx (c : Client) (L : Lib) (call : Call) (req : Request)
    (resp : Response) (hsent : req ∈ (c.invoke L call).sent)
    (hdo : c.HTTPClient req = .ok resp)
    (hlo : 200 ≤ resp.StatusCode) (hhi : resp.StatusCode < 300) :
    (c.invoke L call).result = parseFor L call resp.Body := by
  obtain ⟨u, -, -, -, -, -, -, hout⟩ := invoke_sent c L call req hsent
  rw [hout]
  show c.answer L call req = _
  rw [answer_of_response c L call req resp hdo, if_neg]
  omega

/-- What an operation returns for a response without a 2xx status. -/
theorem invoke_result_status (c : Client) (L : Lib) (call : Call) (req : Request)
    (resp : Response) (hsent : req ∈ (c.invoke L call).sent)
    (hdo : c.HTTPClient req = .ok resp)
    (hcode : resp.StatusCode < 200 ∨ resp.StatusCode ≥ 300) :
    (c.invoke L call).result = .error (Error.New resp.Status) := by
  obtain ⟨u, -, -, -, -, -, -, hout⟩ := invoke_sent c L call req hsent
  rw [hout]
  show c.answer L call req = _
  rw [answer_of_response c L call req resp hdo, if_pos hcode]

/-- C2: when the body decodes to an envelope whose success flag is false,
parseSimilarResponse and parseSimilarsResponse return the error ErrFacebox
carrying exactly the error string of the envelope, whatever list the envelope
also carries, and so does every operation that received a 2xx response with
such a body. -/
theorem failure_envelope_yields_ErrFacebox (L : Lib) :
    (∀ (r : Reader) (env : SimilarResponse), L.DecodeSimilar r = .ok env →
      env.Success = false →
      parseSimilarResponse L r = .error (Error.ErrFacebox env.Error)) ∧
    (∀ (r : Reader) (env : SimilarsResponse), L.DecodeSimilars r = .ok env →
      env.Success = false →
      parseSimilarsResponse L r = .error (Error.ErrFacebox env.Error)) ∧
    (∀ (c : Client) (call : Call) (req : Request) (resp : Response) (msg : String),
      req ∈ (c.invoke L call).sent → c.HTTPClient req = .ok resp →
      200 ≤ resp.StatusCode → resp.StatusCode < 300 →
      L.envelope call resp.Body = .ok (false, msg) →
      (c.invoke L call).result = .error (Error.ErrFacebox msg)) := by
  have h1 : ∀ (r : Reader) (env : SimilarResponse), L.DecodeSimilar r = .ok env →
      env.Success = false →
      parseSimilarResponse L r = .error (Error.ErrFacebox env.Error) := by
    intro r env hd hs
    simp [parseSimilarResponse, hd, hs]
  have h2 : ∀ (r : Reader) (env : SimilarsResponse), L.DecodeSimilars r = .ok env →
      env.Success = false →
      parseSimilarsResponse L r = .error (Error.ErrFacebox env.Error) := by
    intro r env hd hs
    simp [parseSimilarsResponse, hd, hs]
  refine ⟨h1, h2, ?_⟩
  intro c call req resp msg hsent hdo hlo hhi henv
  rw [invoke_result_2xx c L call req resp hsent hdo hlo hhi]
  unfold Lib.envelope at henv
  unfold parseFor
  cases hm : call.multi with
  | true =>
    rw [hm] at henv
    simp only [if_true] at henv ⊢
    cases hd : L.DecodeSimilars resp.Body with
    | error e => rw [hd] at henv; cases henv
    | ok env =>
      rw [hd] at henv
      simp only [Except.map, Except.ok.injEq, Prod.mk.injEq] at henv
      rw [h2 _ env hd henv.1, henv.2]
      rfl
  | false =>
    rw [hm] at henv
    simp only [Bool.false_eq_true, if_false] at henv ⊢
    cases hd : L.DecodeSimilar resp.Body with
    | error e => rw [hd] at henv; cases henv
    | ok env =>
      rw [hd] at henv
      simp only [Except.map, Except.ok.injEq, Prod.mk.injEq] at henv
      rw [h1 _ env hd henv.1, henv.2]
      rfl

/-- Witness of C2: the failure body of the spec gives
ErrFacebox("no trained faces"). -/
theorem failure_envelope_yields_ErrFacebox_witness :
    parseSimilarResponse refLib (Ref.body Ref.failureJSON) =
      .error (Error.ErrFacebox "no trained faces") :=
  (failure_envelope_yields_ErrFacebox refLib).1 (Ref.body Ref.failureJSON)
    { Success := false, Error := "no trained faces", Similar := [] } (by decide) rfl

/-- C3: once an operation has handed its request to the transport and got a
response, a status code below 200 or at least 300 makes it return the error
whose message is the status text, for every response body (a client whose
transport answers with another body has the same outcome), and a status code
from 200 to 299 makes it return what the envelope parser gives for the body. -/
theorem status_decides_outcome (c : Client) (L : Lib) (call : Call) (req : Request)
    (resp : Response) (hsent : req ∈ (c.invoke L call).sent)
    (hdo : c.HTTPClient req = .ok resp) :
    (resp.StatusCode < 200 ∨ resp.StatusCode ≥ 300 →
      (c.invoke L call).result = .error (Error.New resp.Status) ∧
      ∀ (c2 : Client) (body : Reader), c2.addr = c.addr →
        c2.HTTPClient req = .ok { resp with Body := body } →
        c2.invoke L call = c.invoke L call) ∧
    (200 ≤ resp.StatusCode ∧ resp.StatusCode ≤ 299 →
      (c.invoke L call).result = parseFor L call resp.Body) := by
  constructor
  · intro hcode
    refine ⟨invoke_result_status c L call req resp hsent hdo hcode, ?_⟩
    intro c2 body haddr hdo2
    obtain ⟨u, hp, ha, hr, hc, ⟨u2, hn⟩, hq, hout⟩ := invoke_sent c L call req hsent
    have hrun := run_ok c2 L call u u2 (by rw [haddr]; exact hp) ha hr hc hn
    rw [hout, invoke_eq_run, hrun, ← hq]
    congr 1
    rw [answer_of_response c L call req resp hdo,
      answer_of_response c2 L call req _ hdo2]
    simp only [if_pos hcode]
  · intro h
    exact invoke_result_2xx c L call req resp hsent hdo h.1 (by omega)

/-- Witness of C3: against a server answering 500 the operation SimilarBase64
returns the status text as its error. -/
theorem status_decides_outcome_witness :
    (downClient.invoke refLib (.SimilarBase64 "aGk=")).result =
      .error (Error.New "500 Internal Server Error") :=
  ((status_decides_outcome downClient refLib (.SimilarBase64 "aGk=")
    ⟨"POST", "http://localhost:8080/facebox/similar",
      [("Accept", "application/json; charset=utf-8"),
       ("Content-Type", "application/x-www-form-urlencoded")],
      Body.text "base64=aGk%3D"⟩
    ⟨"500 Internal Server Error", 500, Ref.body Ref.successJSON⟩
    (by decide) rfl).1 (by decide)).1

/-- C4: when the body decodes to an envelope whose success flag is true,
parseSimilarResponse returns, with no error, exactly the decoded Similar list
and parseSimilarsResponse exactly the decoded SimilarFace list. -/
theorem success_envelope_yields_list (L : Lib) (r : Reader) :
    (∀ env : SimilarResponse, L.DecodeSimilar r = .ok env → env.Success = true →
      parseSimilarResponse L r = .ok env.Similar) ∧
    (∀ env : SimilarsResponse, L.DecodeSimilars r = .ok env → env.Success = true →
      parseSimilarsResponse L r = .ok env.Faces) := by
  constructor
  · intro env hd hs
    simp [parseSimilarResponse, hd, hs]
  · intro env hd hs
    simp [parseSimilarsResponse, hd, hs]

/-- Witness of C4: the one-match body of the spec yields exactly one result
with the three fields of the body. -/
theorem success_envelope_yields_list_witness :
    parseSimilarResponse refLib (Ref.body Ref.successJSON) =
      .ok [{ ID := "1", Confidence := ⟨0x3FECCCCCCCCCCCCD⟩, Name := "Alice" }] :=
  (success_envelope_yields_list refLib (Ref.body Ref.successJSON)).1
    { Success := true, Error := "", Similar := [Ref.alice] } (by decide) rfl

/-- C10 as stated fails: the body null is not an envelope (it does not even
begin an object), yet the decoder accepts it, leaves the envelope at its zero
value, and SimilarID on a 200 response with this body returns ErrFacebox("")
and not a wrapped decode error. -/
theorem null_body_yields_ErrFacebox_counterexample :
    Ref.startsObject (Ref.body "null").data = false ∧
    nullClient.SimilarID refLib "abc" =
      ⟨[⟨"GET", "http://localhost:8080/facebox/similar?id=abc",
          [("Accept", "application/json; charset=utf-8")], Body.none⟩],
       .error (Error.ErrFacebox "")⟩ ∧
    (nullClient.Similars refLib "b" goodImage 3).result = .error (Error.ErrFacebox "") ∧
    ∀ e : Error, (nullClient.SimilarID refLib "abc").result ≠
      .error (Error.Wrap e "decoding response") := by
  refine ⟨by decide, by decide, by decide, ?_⟩
  intro e h
  have h2 : (nullClient.SimilarID refLib "abc").result = .error (Error.ErrFacebox "") := by
    decide
  rw [h2] at h
  cases h

/-- C10, amended: when the JSON decoder reports an error for the body of a 2xx
response, parseSimilarResponse and parseSimilarsResponse return that error
wrapped with the context "decoding response", and so does every operation: an
operation whose checks pass hands its request to the transport and, on a 2xx
response with such a body, returns no results and the wrapped error.  An error
of this form is never an ErrFacebox.  A body that the decoder accepts is
judged by its success flag alone, also when it is not an envelope object. -/
theorem decode_failure_is_wrapped (L : Lib) :
    (∀ (r : Reader) (e : Error), L.DecodeSimilar r = .error e →
      parseSimilarResponse L r = .error (Error.Wrap e "decoding response")) ∧
    (∀ (r : Reader) (e : Error), L.DecodeSimilars r = .error e →
      parseSimilarsResponse L r = .error (Error.Wrap e "decoding response")) ∧
    (∀ (c : Client) (call : Call) (req : Request) (resp : Response) (e : Error),
      req ∈ (c.invoke L call).sent → c.HTTPClient req = .ok resp →
      200 ≤ resp.StatusCode → resp.StatusCode < 300 →
      L.envelope call resp.Body = .error e →
      (c.invoke L call).result = .error (Error.Wrap e "decoding response")) ∧
    (∀ (c : Client) (call : Call) (u u2 : URL) (resp : Response) (e : Error),
      L.Parse (c.addr ++ call.endpoint) = .ok u → u.IsAbs = true →
      call.readError = none → call.check = none →
      L.Parse (call.request L u).URL = .ok u2 →
      c.HTTPClient (call.request L u) = .ok resp →
      200 ≤ resp.StatusCode → resp.StatusCode < 300 →
      L.envelope call resp.Body = .error e →
      c.invoke L call =
        ⟨[call.request L u], .error (Error.Wrap e "decoding response")⟩) ∧
    (∀ (e : Error) (msg : String),
      Error.Wrap e "decoding response" ≠ Error.ErrFacebox msg) := by
  have h1 : ∀ (r : Reader) (e : Error), L.DecodeSimilar r = .error e →
      parseSimilarResponse L r = .error (Error.Wrap e "decoding response") := by
    intro r e hd
    simp [parseSimilarResponse, hd]
  have h2 : ∀ (r : Reader) (e : Error), L.DecodeSimilars r = .error e →
      parseSimilarsResponse L r = .error (Error.Wrap e "decoding response") := by
    intro r e hd
    simp [parseSimilarsResponse, hd]
  have h3 : ∀ (call : Call) (r : Reader) (e : Error), L.envelope call r = .error e →
      parseFor L call r = .error (Error.Wrap e "decoding response") := by
    intro call r e henv
    unfold Lib.envelope at henv
    unfold parseFor
    cases hm : call.multi with
    | true =>
      rw [hm] at henv
      simp only [if_true] at henv ⊢
      cases hd : L.DecodeSimilars r with
      | ok env => rw [hd] at henv; cases henv
      | error e2 =>
        rw [hd] at henv
        simp only [Except.map, Except.error.injEq] at henv
        rw [h2 _ e2 hd, henv]
        rfl
    | false =>
      rw [hm] at henv
      simp only [Bool.false_eq_true, if_false] at henv ⊢
      cases hd : L.DecodeSimilar r with
      | ok env => rw [hd] at henv; cases henv
      | error e2 =>
        rw [hd] at henv
        simp only [Except.map, Except.error.injEq] at henv
        rw [h1 _ e2 hd, henv]
        rfl
  refine ⟨h1, h2, ?_, ?_, ?_⟩
  · intro c call req resp e hsent hdo hlo hhi henv
    rw [invoke_result_2xx c L call req resp hsent hdo hlo hhi]
    exact h3 call resp.Body e henv
  · intro c call u u2 resp e hp ha hr hc hn hdo hlo hhi henv
    rw [invoke_eq_run, run_ok c L call u u2 hp ha hr hc hn,
      answer_of_response c L call _ resp hdo, if_neg (by omega), h3 call resp.Body e henv]
  · intro e msg h
    cases h

/-- Witness of C10, amended: a 200 response with the body <html>, which the
decoder rejects at its first byte, makes SimilarID return that syntax error
wrapped with "decoding response". -/
theorem decode_failure_is_wrapped_witness :
    garbageClient.invoke refLib (.SimilarID "abc") =
      ⟨[⟨"GET", "http://localhost:8080/facebox/similar?id=abc",
          [("Accept", "application/json; charset=utf-8")], Body.none⟩],
       .error (Error.Wrap
         (Error.Ext "invalid character '<' looking for beginning of value")
         "decoding response")⟩ :=
  (decode_failure_is_wrapped refLib).2.2.2.1 garbageClient (.SimilarID "abc")
    { imageAt with Host := "localhost:8080", Path := "/facebox/similar" }
    { imageAt with Host := "localhost:8080", Path := "/facebox/similar", RawQuery := "id=abc" }
    ⟨"200 OK", 200, Ref.body "<html>"⟩
    (Error.Ext "invalid character '<' looking for beginning of value")
    (by decide) (by decide) rfl (by decide) (by decide) rfl (by decide) (by decide)
    (by decide)

/-- C5 as stated fails: with the base address "facebox.local", which parses to
a URL without scheme, and an image reader whose read fails, Similar returns
the read error and not "box address must be absolute". -/
theorem relative_address_read_error_counterexample :
    (∃ u, refLib.Parse (relClient.addr ++ "/facebox/similar") = .ok u ∧ u.IsAbs = false) ∧
    relClient.Similar refLib "b" brokenImage = ⟨[], .error (Error.Ext "unexpected EOF")⟩ ∧
    (relClient.Similar refLib "b" brokenImage).result ≠
      .error (Error.New "box address must be absolute") := by
  refine ⟨⟨{ imageRel with Path := "facebox.local/facebox/similar" }, by decide, by decide⟩,
    by decide, by decide⟩

/-- C5, amended: when the endpoint built from the base address parses to a URL
that is not absolute, no operation invokes the transport; the operation fails
with "box address must be absolute", except that Similar and Similars, which
read the image first, return the read error when reading the image fails. -/
theorem relative_address_never_reaches_transport (c : Client) (L : Lib) (call : Call)
    (u : URL) (hp : L.Parse (c.addr ++ call.endpoint) = .ok u) (ha : u.IsAbs = false) :
    (c.invoke L call).sent = [] ∧
    (call.readError = none →
      (c.invoke L call).result = .error (Error.New "box address must be absolute")) ∧
    (∀ e, call.readError = some e → (c.invoke L call).result = .error e) := by
  rw [invoke_eq_run, run_not_abs c L call u hp ha]
  refine ⟨rfl, ?_, ?_⟩
  · intro hr
    simp [hr]
  · intro e hr
    simp [hr]

/-- Witness of C5, amended: SimilarID on the address "facebox.local". -/
theorem relative_address_never_reaches_transport_witness :
    (relClient.invoke refLib (.SimilarID "abc")).sent = [] ∧
    (relClient.invoke refLib (.SimilarID "abc")).result =
      .error (Error.New "box address must be absolute") :=
  have h := relative_address_never_reaches_transport relClient refLib (.SimilarID "abc")
    { imageRel with Path := "facebox.local/facebox/similar" } (by decide) (by decide)
  ⟨h.1, h.2.1 rfl⟩

/-- C6: with an absolute base address, SimilarID of the empty id fails with
"id can not be empty" without invoking the transport; for a non-empty id whose
request URL http.NewRequest accepts, SimilarID hands the transport exactly one
request, a GET without body, whose URL is the endpoint with the query replaced
by the encoding of its query values with "id" set to the given id. -/
theorem SimilarID_request (c : Client) (L : Lib) (u : URL)
    (hp : L.Parse (c.addr ++ "/facebox/similar") = .ok u) (ha : u.IsAbs = true) :
    c.SimilarID L "" = ⟨[], .error (Error.New "id can not be empty")⟩ ∧
    ∀ (id : String) (u2 : URL), id ≠ "" →
      L.Parse (L.URLString
        { u with RawQuery := ((L.Query u).Set "id" id).Encode }) = .ok u2 →
      ∃ req, (c.SimilarID L id).sent = [req] ∧ req.Method = "GET" ∧
        req.Body = Body.none ∧
        req.URL = L.URLString { u with RawQuery := ((L.Query u).Set "id" id).Encode } ∧
        ((L.Query u).Set "id" id).Get "id" = id ∧
        (L.Query u = [] →
          req.URL = L.URLString { u with RawQuery := "id=" ++ QueryEscape id }) := by
  constructor
  · simp [Client.SimilarID, hp, ha]
  · intro id u2 hid hn
    have hrun := run_ok c L (.SimilarID id) u u2 hp ha rfl
      (by simp [Call.check, hid]) hn
    have hinv := invoke_eq_run c L (.SimilarID id)
    rw [hrun] at hinv
    have hsent : (c.SimilarID L id).sent = [Call.request L u (.SimilarID id)] :=
      congrArg Outcome.sent hinv
    refine ⟨_, hsent, rfl, rfl, rfl, ?_, ?_⟩
    · simp [Values.Set, Values.Get, List.lookup]
    · intro hq
      simp only [Call.request, hq, Values.Set, List.filter, Encode_single, QueryEscape_id]
      rfl

/-- Witness of C6: SimilarID("abc") sends a GET with the query id=abc. -/
theorem SimilarID_request_witness :
    ∃ req, (okClient.SimilarID refLib "abc").sent = [req] ∧ req.Method = "GET" ∧
      req.Body = Body.none ∧
      req.URL = "http://localhost:8080/facebox/similar?id=abc" :=
  have h := (SimilarID_request okClient refLib
    { imageAt with Host := "localhost:8080", Path := "/facebox/similar" }
    (by decide) (by decide)).2 "abc"
    { imageAt with Host := "localhost:8080", Path := "/facebox/similar", RawQuery := "id=abc" }
    (by decide) (by decide)
  h.imp (fun _ hr => ⟨hr.1, hr.2.1, hr.2.2.1, hr.2.2.2.1.trans (by decide)⟩)

/-- C7: with an absolute base address, SimilarURL and SimilarsURL fail with
"url must be absolute" without invoking the transport when the image URL is
not absolute; when it is absolute (and http.NewRequest accepts the endpoint)
they raise no configuration error: exactly one POST request goes to the
transport and the result is the one decided by the transport and the
response. -/
theorem image_url_must_be_absolute (c : Client) (L : Lib) (call : Call)
    (imageURL u : URL) (hurl : call.imageURL = some imageURL)
    (hp : L.Parse (c.addr ++ call.endpoint) = .ok u) (ha : u.IsAbs = true) :
    (imageURL.IsAbs = false →
      c.invoke L call = ⟨[], .error (Error.New "url must be absolute")⟩) ∧
    (imageURL.IsAbs = true → ∀ u2, L.Parse (L.URLString u) = .ok u2 →
      ∃ req, req.Method = "POST" ∧ req.URL = L.URLString u ∧
        c.invoke L call = ⟨[req], c.answer L call req⟩) := by
  have hr : call.readError = none := by
    cases call <;> simp [Call.imageURL] at hurl <;> rfl
  have hc : call.check =
      if imageURL.IsAbs then none else some (Error.New "url must be absolute") := by
    cases call <;> simp [Call.imageURL] at hurl <;> subst hurl <;> rfl
  have hreq : (call.request L u).Method = "POST" ∧ (call.request L u).URL = L.URLString u := by
    cases call <;> simp [Call.imageURL] at hurl <;> exact ⟨rfl, rfl⟩
  constructor
  · intro hi
    rw [invoke_eq_run]
    simp [Client.run, hr, hp, ha, hc, hi]
  · intro hi u2 hn
    refine ⟨call.request L u, hreq.1, hreq.2, ?_⟩
    rw [invoke_eq_run]
    exact run_ok c L call u u2 hp ha hr (by simp [hc, hi]) (by rw [hreq.2]; exact hn)

/-- Witness of C7: SimilarURL with a relative image URL. -/
theorem image_url_must_be_absolute_witness :
    okClient.invoke refLib (.SimilarURL imageRel) =
      ⟨[], .error (Error.New "url must be absolute")⟩ :=
  (image_url_must_be_absolute okClient refLib (.SimilarURL imageRel) imageRel
    { imageAt with Host := "localhost:8080", Path := "/facebox/similar" }
    rfl (by decide) (by decide)).1 (by decide)

/-- C8: every image-submitting operation whose inputs pass its checks (the
image is read, the endpoint parses to an absolute URL, the image URL is
absolute, http.NewRequest accepts the URL string) hands the transport exactly
one request, a POST to the endpoint whose body and Content-Type match the
encoding.  Similar and Similars send the buffer of a closed multipart writer
with the single part "file" (filename "image.dat") holding exactly the bytes
of the image reader, with the form-data content type of that writer's
boundary.  SimilarURL and SimilarsURL send Content-Type
application/x-www-form-urlencoded and a form body with the field url set to
the string of the image URL: exactly url=v, and limit=n&url=v for SimilarsURL,
where v is the escaped string.  SimilarBase64 and SimilarsBase64 send the same
Content-Type and a form body with the field base64 set to the supplied string:
exactly base64=v, and base64=v&limit=n for SimilarsBase64.  Conversely every
request that reaches the transport has this shape. -/
theorem request_matches_encoding (c : Client) (L : Lib) (boundary : String)
    (image : Reader) (imageURL : URL) (data : String) (limit : Int) :
    (∀ u : URL, L.Parse (c.addr ++ "/facebox/similar") = .ok u → u.IsAbs = true →
      (∃ u2, L.Parse (L.URLString u) = .ok u2) →
      (image.err = none →
        ∃ req : Request, req.Method = "POST" ∧ req.URL = L.URLString u ∧
          req.Body = Body.buffer
            { boundary := boundary,
              parts := [{ FormName := "file", FileName := "image.dat",
                          ContentType := "application/octet-stream", Data := image.data }],
              closed := true } ∧
          req.Header.Get "Content-Type" =
            (NewWriter boundary).FormDataContentType ∧
          c.Similar L boundary image = ⟨[req], c.respond req (parseSimilarResponse L)⟩) ∧
      (imageURL.IsAbs = true →
        ∃ req : Request, req.Method = "POST" ∧ req.URL = L.URLString u ∧
          req.Body = Body.text ("url=" ++ QueryEscape (L.URLString imageURL)) ∧
          req.Header.Get "Content-Type" = "application/x-www-form-urlencoded" ∧
          c.SimilarURL L imageURL = ⟨[req], c.respond req (parseSimilarResponse L)⟩) ∧
      (∃ req : Request, req.Method = "POST" ∧ req.URL = L.URLString u ∧
          req.Body = Body.text ("base64=" ++ QueryEscape data) ∧
          req.Header.Get "Content-Type" = "application/x-www-form-urlencoded" ∧
          c.SimilarBase64 L data = ⟨[req], c.respond req (parseSimilarResponse L)⟩)) ∧
    (∀ u : URL, L.Parse (c.addr ++ "/facebox/similars") = .ok u → u.IsAbs = true →
      (image.err = none →
        (∃ u2, L.Parse (L.URLString
          { u with RawQuery := "limit=" ++ Itoa (if limit < 1 then 5 else limit) }) = .ok u2) →
        ∃ req : Request, req.Method = "POST" ∧
          req.Body = Body.buffer
            { boundary := boundary,
              parts := [{ FormName := "file", FileName := "image.dat",
                          ContentType := "application/octet-stream", Data := image.data }],
              closed := true } ∧
          req.Header.Get "Content-Type" =
            (NewWriter boundary).FormDataContentType ∧
          c.Similars L boundary image limit =
            ⟨[req], c.respond req (parseSimilarsResponse L)⟩) ∧
      (imageURL.IsAbs = true → (∃ u2, L.Parse (L.URLString u) = .ok u2) →
        ∃ req : Request, req.Method = "POST" ∧ req.URL = L.URLString u ∧
          req.Body = Body.text ("limit=" ++ Itoa (if limit < 1 then 5 else limit)
            ++ "&url=" ++ QueryEscape (L.URLString imageURL)) ∧
          req.Header.Get "Content-Type" = "application/x-www-form-urlencoded" ∧
          c.SimilarsURL L imageURL limit =
            ⟨[req], c.respond req (parseSimilarsResponse L)⟩) ∧
      ((∃ u2, L.Parse (L.URLString u) = .ok u2) →
        ∃ req : Request, req.Method = "POST" ∧ req.URL = L.URLString u ∧
          req.Body = Body.text ("base64=" ++ QueryEscape data
            ++ "&limit=" ++ Itoa (if limit < 1 then 5 else limit)) ∧
          req.Header.Get "Content-Type" = "application/x-www-form-urlencoded" ∧
          c.SimilarsBase64 L data limit =
            ⟨[req], c.respond req (parseSimilarsResponse L)⟩)) ∧
    (∀ (call : Call) (req : Request), req ∈ (c.invoke L call).sent →
      match call with
      | .Similar b img | .Similars b img _ =>
        req.Method = "POST" ∧ img.err = none ∧
        req.Body = Body.buffer
          { boundary := b,
            parts := [{ FormName := "file", FileName := "image.dat",
                        ContentType := "application/octet-stream", Data := img.data }],
            closed := true } ∧
        req.Header.Get "Content-Type" = (NewWriter b).FormDataContentType
      | .SimilarURL iu =>
        req.Method = "POST" ∧
        req.Header.Get "Content-Type" = "application/x-www-form-urlencoded" ∧
        req.Body = Body.text ("url=" ++ QueryEscape (L.URLString iu))
      | .SimilarsURL iu lim =>
        req.Method = "POST" ∧
        req.Header.Get "Content-Type" = "application/x-www-form-urlencoded" ∧
        req.Body = Body.text ("limit=" ++ Itoa (if lim < 1 then 5 else lim)
          ++ "&url=" ++ QueryEscape (L.URLString iu))
      | .SimilarBase64 d =>
        req.Method = "POST" ∧
        req.Header.Get "Content-Type" = "application/x-www-form-urlencoded" ∧
        req.Body = Body.text ("base64=" ++ QueryEscape d)
      | .SimilarsBase64 d lim =>
        req.Method = "POST" ∧
        req.Header.Get "Content-Type" = "application/x-www-form-urlencoded" ∧
        req.Body = Body.text ("base64=" ++ QueryEscape d
          ++ "&limit=" ++ Itoa (if lim < 1 then 5 else lim))
      | .SimilarID _ => req.Method = "GET" ∧ req.Body = Body.none) := by
  have hct : ∀ (x y : String), Header.Get [("Content-Type", x), ("Accept", y)]
      "Content-Type" = x := by
    intro x y
    simp [Header.Get, List.lookup]
  have hct2 : ∀ (x y : String), Header.Get [("Accept", y), ("Content-Type", x)]
      "Content-Type" = x := by
    intro x y
    simp [Header.Get, List.lookup]
  refine ⟨?_, ?_, ?_⟩
  · intro u hp ha hn
    obtain ⟨u2, hn⟩ := hn
    refine ⟨?_, ?_, ?_⟩
    · intro hr
      exact ⟨_, rfl, rfl, rfl, hct _ _,
        sends_similar c L (.Similar boundary image) _ u u2 rfl rfl hp ha hr rfl hn⟩
    · intro hi
      exact ⟨_, rfl, rfl, request_SimilarURL_Body L u imageURL, hct2 _ _,
        sends_similar c L (.SimilarURL imageURL) _ u u2 rfl rfl hp ha rfl
          (by simp [Call.check, hi]) hn⟩
    · exact ⟨_, rfl, rfl, request_SimilarBase64_Body L u data, hct2 _ _,
        sends_similar c L (.SimilarBase64 data) _ u u2 rfl rfl hp ha rfl rfl hn⟩
  · intro u hp ha
    refine ⟨?_, ?_, ?_⟩
    · intro hr hn
      obtain ⟨u2, hn⟩ := hn
      rw [← request_Similars_URL L u boundary image limit] at hn
      exact ⟨_, rfl, rfl, hct _ _,
        sends_faces c L (.Similars boundary image limit) _ u u2 rfl rfl hp ha hr rfl hn⟩
    · intro hi hn
      obtain ⟨u2, hn⟩ := hn
      exact ⟨_, rfl, rfl, request_SimilarsURL_Body L u imageURL limit, hct2 _ _,
        sends_faces c L (.SimilarsURL imageURL limit) _ u u2 rfl rfl hp ha rfl
          (by simp [Call.check, hi]) hn⟩
    · intro hn
      obtain ⟨u2, hn⟩ := hn
      exact ⟨_, rfl, rfl, request_SimilarsBase64_Body L u data limit, hct2 _ _,
        sends_faces c L (.SimilarsBase64 data limit) _ u u2 rfl rfl hp ha rfl rfl hn⟩
  · intro call req hsent
    obtain ⟨u, -, -, hr, -, -, hq, -⟩ := invoke_sent c L call req hsent
    subst hq
    cases call with
    | Similar b img => exact ⟨rfl, hr, rfl, hct _ _⟩
    | Similars b img lim => exact ⟨rfl, hr, rfl, hct _ _⟩
    | SimilarURL iu => exact ⟨rfl, hct2 _ _, request_SimilarURL_Body L u iu⟩
    | SimilarsURL iu lim => exact ⟨rfl, hct2 _ _, request_SimilarsURL_Body L u iu lim⟩
    | SimilarBase64 d => exact ⟨rfl, hct2 _ _, request_SimilarBase64_Body L u d⟩
    | SimilarsBase64 d lim => exact ⟨rfl, hct2 _ _, request_SimilarsBase64_Body L u d lim⟩
    | SimilarID id => exact ⟨rfl, rfl⟩

/-- Witness of C8: Similar on a three-byte image hands the transport one
multipart POST holding those bytes, and SimilarBase64 of the empty string
sends the form body base64= with the field present. -/
theorem request_matches_encoding_witness :
    (∃ req : Request, req.Method = "POST" ∧
      req.URL = refLib.URLString
        { imageAt with Host := "localhost:8080", Path := "/facebox/similar" } ∧
      req.Body = Body.buffer
        { boundary := "b",
          parts := [{ FormName := "file", FileName := "image.dat",
                      ContentType := "application/octet-stream", Data := goodImage.data }],
          closed := true } ∧
      req.Header.Get "Content-Type" = (NewWriter "b").FormDataContentType ∧
      okClient.Similar refLib "b" goodImage =
        ⟨[req], okClient.respond req (parseSimilarResponse refLib)⟩) ∧
    okClient.Similar refLib "b" goodImage =
      ⟨[⟨"POST", "http://localhost:8080/facebox/similar",
          [("Content-Type", "multipart/form-data; boundary=b"),
           ("Accept", "application/json; charset=utf-8")],
          Body.buffer
            { boundary := "b",
              parts := [{ FormName := "file", FileName := "image.dat",
                          ContentType := "application/octet-stream",
                          Data := [0xFF, 0xD8, 0xFF] }],
              closed := true }⟩],
       .ok [Ref.alice]⟩ ∧
    (okClient.SimilarBase64 refLib "").sent.map Request.Body = [Body.text "base64="] :=
  ⟨(((request_matches_encoding okClient refLib "b" goodImage imageAt "" 0).1
      { imageAt with Host := "localhost:8080", Path := "/facebox/similar" }
      (by decide) (by decide)
      ⟨{ imageAt with Host := "localhost:8080", Path := "/facebox/similar" },
        by decide⟩).1 (by decide)),
   by decide, by decide⟩

/-- C9 as stated fails for the URL-encoded variants: SimilarsURL with limit 3
posts to the endpoint without any query, not to the endpoint with the query
limit=3 (which is what Similars posts to). -/
theorem url_encoded_limit_not_in_query_counterexample :
    (facesClient.SimilarsURL refLib imageAt 3).sent.map Request.URL =
      ["http://localhost:8080/facebox/similars"] ∧
    (facesClient.Similars refLib "b" goodImage 3).sent.map Request.URL =
      ["http://localhost:8080/facebox/similars?limit=3"] ∧
    ¬ ∀ req ∈ (facesClient.SimilarsURL refLib imageAt 3).sent,
        ∃ u, refLib.Parse (facesClient.addr ++ "/facebox/similars") = .ok u ∧
          req.URL = refLib.URLString { u with RawQuery := "limit=" ++ Itoa 3 } := by
  refine ⟨by decide, by decide, ?_⟩
  intro h
  obtain ⟨u, hu, hreq⟩ := h
    ⟨"POST", "http://localhost:8080/facebox/similars",
      [("Accept", "application/json; charset=utf-8"),
       ("Content-Type", "application/x-www-form-urlencoded")],
      Body.text "limit=3&url=http%3A%2F%2Fexample.com%2Fa.jpg"⟩ (by decide)
  have hp : refLib.Parse (facesClient.addr ++ "/facebox/similars") =
      .ok { imageAt with Host := "localhost:8080", Path := "/facebox/similars" } := by decide
  rw [hp] at hu
  cases hu
  revert hreq
  decide

/-- C9, amended: every request of a multi-result operation is a POST.  Similars
posts to the endpoint with its query replaced by limit=n; SimilarsURL and
SimilarsBase64 post to the endpoint as parsed, with no limit parameter added
to its query, and carry the limit only in the form body, as the field limit=n
next to url or base64.  Here n is 5 when limit < 1 and limit otherwise. -/
theorem limit_in_query_or_form (c : Client) (L : Lib) (call : Call) (req : Request)
    (hsent : req ∈ (c.invoke L call).sent) :
    match call with
    | .Similars _ _ limit =>
      req.Method = "POST" ∧
      ∃ u, L.Parse (c.addr ++ "/facebox/similars") = .ok u ∧
        req.URL = L.URLString
          { u with RawQuery := "limit=" ++ Itoa (if limit < 1 then 5 else limit) }
    | .SimilarsURL imageURL limit =>
      req.Method = "POST" ∧
      (∃ u, L.Parse (c.addr ++ "/facebox/similars") = .ok u ∧ req.URL = L.URLString u) ∧
      req.Body = Body.text ("limit=" ++ Itoa (if limit < 1 then 5 else limit)
        ++ "&url=" ++ QueryEscape (L.URLString imageURL))
    | .SimilarsBase64 data limit =>
      req.Method = "POST" ∧
      (∃ u, L.Parse (c.addr ++ "/facebox/similars") = .ok u ∧ req.URL = L.URLString u) ∧
      req.Body = Body.text ("base64=" ++ QueryEscape data
        ++ "&limit=" ++ Itoa (if limit < 1 then 5 else limit))
    | _ => True := by
  obtain ⟨u, hp, -, -, -, -, hq, -⟩ := invoke_sent c L call req hsent
  subst hq
  cases call with
  | Similars b image limit =>
    refine ⟨rfl, u, hp, ?_⟩
    simp only [Call.request, Encode_single, QueryEscape_limit, QueryEscape_Itoa, effectiveLimit]
    rfl
  | SimilarsURL imageURL limit =>
    refine ⟨rfl, ⟨u, hp, rfl⟩, ?_⟩
    simp only [Call.request, Encode_limit_url, QueryEscape_Itoa, effectiveLimit]
  | SimilarsBase64 data limit =>
    refine ⟨rfl, ⟨u, hp, rfl⟩, ?_⟩
    simp only [Call.request, Encode_limit_base64, QueryEscape_Itoa, effectiveLimit]
  | Similar _ _ => trivial
  | SimilarURL _ => trivial
  | SimilarID _ => trivial
  | SimilarBase64 _ => trivial

/-- Witness of C9, amended: the request of SimilarsURL with limit 0. -/
theorem limit_in_query_or_form_witness :
    (⟨"POST", "http://localhost:8080/facebox/similars",
        [("Accept", "application/json; charset=utf-8"),
         ("Content-Type", "application/x-www-form-urlencoded")],
        Body.text "limit=5&url=http%3A%2F%2Fexample.com%2Fa.jpg"⟩ : Request).Body =
      Body.text ("limit=" ++ Itoa (if (0 : Int) < 1 then 5 else 0)
        ++ "&url=" ++ QueryEscape (refLib.URLString imageAt)) :=
  (limit_in_query_or_form facesClient refLib (.SimilarsURL imageAt 0)
    ⟨"POST", "http://localhost:8080/facebox/similars",
      [("Accept", "application/json; charset=utf-8"),
       ("Content-Type", "application/x-www-form-urlencoded")],
      Body.text "limit=5&url=http%3A%2F%2Fexample.com%2Fa.jpg"⟩ (by decide)).2.2

/-- The one-match example of the spec run through the whole operation: Similar
hands one multipart POST to the transport and returns exactly the match of
the body. -/
theorem Similar_one_match_example :
    (okClient.Similar refLib "b" goodImage).sent.map Request.URL =
      ["http://localhost:8080/facebox/similar"] ∧
    (okClient.Similar refLib "b" goodImage).result = .ok [Ref.alice] ∧
    (failClient.Similar refLib "b" goodImage).result =
      .error (Error.ErrFacebox "no trained faces") ∧
    (downClient.Similar refLib "b" goodImage).result =
      .error (Error.New "500 Internal Server Error") := by
  decide

end Facebox
